import Mathlib

/-!
Verification of the coach signal-to-candidate pipeline
(`src/plugins/coach/scripts`): fingerprinting (`fingerprint.py`),
signal detection (`detect_signals.py`), root-cause analysis
(`root_cause_analyzer.py`), scope analysis (`scope_analyzer.py`),
the ledger (`ledger.py`) and the candidate aggregator (`aggregate.py`).

Modelling conventions:
* Python strings are modelled as `List Nat` of Unicode code points
  (wrapped into Lean `String` at the interfaces).  Case mapping is the
  ASCII one, which is faithful for every string manipulated here.
* Python `re` patterns are embedded as `Regex` values and executed by a
  backtracking matcher with Python's semantics (leftmost match,
  greedy quantifiers, ordered alternation, word boundaries,
  IGNORECASE); `re.sub` scans the original string left to right and
  replaces non-overlapping matches.
* Python floats are modelled as exact rationals: every constant used by
  the pipeline is a small decimal and every comparison performed on
  scores/confidences is far from the rounding error of binary floats,
  so the rational model decides each comparison exactly as CPython.
* Database / filesystem state (SQLite rows, JSON context files) is
  passed explicitly as values; clock and uuid sources are parameters.
-/

namespace Coach

/-- Code of the character, i.e. the Python `ord`. -/
def encodeStr (s : String) : List Nat :=
  s.data.map Char.toNat

/-- Back from code points to a Lean string (all codes produced by the
pipeline are valid code points). -/
def decodeStr (l : List Nat) : String :=
  String.mk (l.map Char.ofNat)

/-- ASCII lower-casing of one code point, as Python `str.lower` acts on
the ASCII range. -/
def toLowerCode (n : Nat) : Nat :=
  if 65 ≤ n ∧ n ≤ 90 then n + 32 else n

/-- Python regex `\w` on the ASCII range: letters, digits, underscore. -/
def isWordCode (n : Nat) : Bool :=
  decide ((48 ≤ n ∧ n ≤ 57) ∨ (65 ≤ n ∧ n ≤ 90) ∨ (97 ≤ n ∧ n ≤ 122) ∨ n = 95)

/-- Python whitespace (`str.split` and regex `\s`): space, tab, newline,
carriage return, form feed, vertical tab. -/
def isPyWs (n : Nat) : Bool :=
  decide (n = 32 ∨ n = 9 ∨ n = 10 ∨ n = 13 ∨ n = 12 ∨ n = 11)

/-- One member of a regex character class. -/
inductive ClsItem where
  | one (c : Nat)
  | range (lo hi : Nat)

/-- The regex fragment the pipeline's patterns use: literals, classes,
concatenation, ordered alternation, greedy star, greedy bounded
repetition and the word boundary `\b`. -/
inductive Regex where
  | eps
  | ch (c : Nat)
  | cls (neg : Bool) (items : List ClsItem)
  | cat (r s : Regex)
  | alt (r s : Regex)
  | star (r : Regex)
  | rep (lo : Nat) (hi : Option Nat) (r : Regex)
  | wb

/-- Class membership for one item, with optional IGNORECASE folding. -/
def clsItemMatch (ci : Bool) (it : ClsItem) (c : Nat) : Bool :=
  let c := if ci then toLowerCode c else c
  match it with
  | .one d => c == (if ci then toLowerCode d else d)
  | .range lo hi =>
      decide ((if ci then toLowerCode lo else lo) ≤ c ∧
        c ≤ (if ci then toLowerCode hi else hi))

/-- Backtracking matcher in continuation style, mirroring CPython's
engine on the fragment above: alternatives are tried left to right,
quantifiers prefer the longer match, `\b` consults the previous
character.  The continuation receives the previous character and the
rest of the input; the result carries the remainder after the overall
match.  `fuel` bounds the recursion depth; every caller supplies ample
fuel via `fuelFor`, so the bound is never the deciding factor. -/
def matchFrom (ci : Bool) : Nat → Regex → Option Nat → List Nat →
    (Option Nat → List Nat → Option (List Nat × Option Nat)) →
    Option (List Nat × Option Nat)
  | 0, _, _, _, _ => none
  | fuel+1, r, prev, s, k =>
    match r with
    | .eps => k prev s
    | .ch c =>
      match s with
      | [] => none
      | d :: rest =>
        if (if ci then toLowerCode d == toLowerCode c else d == c) then
          k (some d) rest
        else none
    | .cls neg items =>
      match s with
      | [] => none
      | d :: rest =>
        if (items.any (fun it => clsItemMatch ci it d)) != neg then
          k (some d) rest
        else none
    | .cat r1 r2 =>
      matchFrom ci fuel r1 prev s (fun p2 s2 => matchFrom ci fuel r2 p2 s2 k)
    | .alt r1 r2 =>
      match matchFrom ci fuel r1 prev s k with
      | some res => some res
      | none => matchFrom ci fuel r2 prev s k
    | .star r1 =>
      match matchFrom ci fuel r1 prev s (fun p2 s2 =>
          if s2.length < s.length then
            matchFrom ci fuel (.star r1) p2 s2 k
          else none) with
      | some res => some res
      | none => k prev s
    | .rep lo hi r1 =>
      match lo, hi with
      | n+1, h =>
        matchFrom ci fuel r1 prev s (fun p2 s2 =>
          matchFrom ci fuel (.rep n (h.map Nat.pred) r1) p2 s2 k)
      | 0, some 0 => k prev s
      | 0, some (m+1) =>
        (match matchFrom ci fuel r1 prev s (fun p2 s2 =>
            if s2.length < s.length then
              matchFrom ci fuel (.rep 0 (some m) r1) p2 s2 k
            else none) with
        | some res => some res
        | none => k prev s)
      | 0, none => matchFrom ci fuel (.star r1) prev s k
    | .wb =>
      let before := match prev with | some c => isWordCode c | none => false
      let after := match s with | c :: _ => isWordCode c | [] => false
      if before != after then k prev s else none

/-- Structural size of a regex, used to compute a sufficient fuel. -/
def regexSize : Regex → Nat
  | .eps => 1
  | .ch _ => 1
  | .cls _ _ => 1
  | .cat a b => regexSize a + regexSize b + 1
  | .alt a b => regexSize a + regexSize b + 1
  | .star a => regexSize a + 2
  | .rep lo hi a => regexSize a + lo + (match hi with | some h => h | none => 0) + 2
  | .wb => 1

/-- Ample recursion fuel for matching `r` against `s`. -/
def fuelFor (r : Regex) (s : List Nat) : Nat :=
  (s.length + regexSize r + 4) * 4

/-- Try matching at the head of the input, returning the remainder. -/
def matchHere (ci : Bool) (r : Regex) (prev : Option Nat) (s : List Nat) :
    Option (List Nat × Option Nat) :=
  matchFrom ci (fuelFor r s) r prev s (fun p2 s2 => some (s2, p2))

/-- Python `re.search`: does the pattern match anywhere in the string? -/
def searchFrom (ci : Bool) (r : Regex) : Nat → Option Nat → List Nat → Bool
  | 0, _, _ => false
  | fuel+1, prev, s =>
    match matchHere ci r prev s with
    | some _ => true
    | none =>
      match s with
      | [] => false
      | c :: rest => searchFrom ci r fuel (some c) rest

/-- Python `re.search` as a Boolean. -/
def rsearch (ci : Bool) (r : Regex) (s : List Nat) : Bool :=
  searchFrom ci r (s.length + 1) none s

/-- Python `re.sub` with a literal replacement: scan left to right over
the original string, replacing non-overlapping matches.  None of the
patterns used by the pipeline can match the empty string; a zero-width
match is treated as no match at that position. -/
def subFrom (ci : Bool) (r : Regex) (repl : List Nat) :
    Nat → Option Nat → List Nat → List Nat
  | 0, _, s => s
  | fuel+1, prev, s =>
    match matchHere ci r prev s with
    | some (s2, p2) =>
      if s2.length < s.length then
        repl ++ subFrom ci r repl fuel p2 s2
      else
        match s with
        | [] => []
        | c :: rest => c :: subFrom ci r repl fuel (some c) rest
    | none =>
      match s with
      | [] => []
      | c :: rest => c :: subFrom ci r repl fuel (some c) rest

/-- Python `re.sub` over a whole string. -/
def rsubAll (ci : Bool) (r : Regex) (repl : List Nat) (s : List Nat) : List Nat :=
  subFrom ci r repl (s.length + 1) none s

/-- Python `len(re.findall ...)`: the number of non-overlapping matches. -/
def countFrom (ci : Bool) (r : Regex) : Nat → Option Nat → List Nat → Nat
  | 0, _, _ => 0
  | fuel+1, prev, s =>
    match matchHere ci r prev s with
    | some (s2, p2) =>
      if s2.length < s.length then 1 + countFrom ci r fuel p2 s2
      else
        match s with
        | [] => 1
        | c :: rest => 1 + countFrom ci r fuel (some c) rest
    | none =>
      match s with
      | [] => 0
      | c :: rest => countFrom ci r fuel (some c) rest

/-- Python `len(re.findall ...)` over a whole string. -/
def rcount (ci : Bool) (r : Regex) (s : List Nat) : Nat :=
  countFrom ci r (s.length + 1) none s

/-- Literal regex for a plain string (`re.escape` is the identity on the
tool names and literals used by the pipeline). -/
def rstr (s : String) : Regex :=
  (encodeStr s).foldr (fun c acc => Regex.cat (.ch c) acc) .eps

/-- Ordered alternation of a list of regexes, as `(?:a|b|c)`. -/
def altL : List Regex → Regex
  | [] => .cls false []
  | [r] => r
  | r :: rs => .alt r (altL rs)

/-- Greedy `+`. -/
def plusR (r : Regex) : Regex := .cat r (.star r)

/-- Greedy `?`. -/
def optR (r : Regex) : Regex := .alt r .eps

/-- Class items for `\w`. -/
def wIt : List ClsItem := [ .range 97 122, .range 65 90, .range 48 57, .one 95 ]

/-- Class items for `\d`. -/
def dIt : List ClsItem := [ .range 48 57 ]

/-- Class items for `\s`. -/
def sIt : List ClsItem := [ .one 32, .one 9, .one 10, .one 13, .one 12, .one 11 ]

/-- Class items for lowercase hex `[a-f0-9]`. -/
def hexIt : List ClsItem := [ .range 97 102, .range 48 57 ]

/-- Regex `.` (any character but newline). -/
def dotR : Regex := .cls true [ .one 10 ]

/-- Regex `\s+`. -/
def ws1R : Regex := plusR (.cls false sIt)

/-! ## Fingerprint engine (`fingerprint.py`) -/

/-- Tool name buckets for generalization (`TOOL_BUCKETS`), in source
(dict insertion) order. -/
def TOOL_BUCKETS : List (String × String) := [
  ( "pytest", "<TEST_RUNNER>" ), ( "jest", "<TEST_RUNNER>" ),
  ( "mocha", "<TEST_RUNNER>" ), ( "vitest", "<TEST_RUNNER>" ),
  ( "phpunit", "<TEST_RUNNER>" ), ( "rspec", "<TEST_RUNNER>" ),
  ( "go test", "<TEST_RUNNER>" ),
  ( "npm", "<PKG_MANAGER>" ), ( "pnpm", "<PKG_MANAGER>" ),
  ( "yarn", "<PKG_MANAGER>" ), ( "pip", "<PKG_MANAGER>" ),
  ( "poetry", "<PKG_MANAGER>" ), ( "composer", "<PKG_MANAGER>" ),
  ( "cargo", "<PKG_MANAGER>" ), ( "go mod", "<PKG_MANAGER>" ),
  ( "webpack", "<BUILD_TOOL>" ), ( "vite", "<BUILD_TOOL>" ),
  ( "esbuild", "<BUILD_TOOL>" ), ( "rollup", "<BUILD_TOOL>" ),
  ( "tsc", "<BUILD_TOOL>" ), ( "make", "<BUILD_TOOL>" ),
  ( "eslint", "<LINTER>" ), ( "prettier", "<LINTER>" ),
  ( "pylint", "<LINTER>" ), ( "flake8", "<LINTER>" ),
  ( "rubocop", "<LINTER>" ), ( "phpcs", "<LINTER>" ) ]

/-- Character class of the path rule `[a-zA-Z0-9_\-./]`. -/
def pathIt : List ClsItem :=
  [ .range 97 122, .range 65 90, .range 48 57, .one 95, .one 45, .one 46, .one 47 ]

/-- Regex of the path rule `/[a-zA-Z0-9_\-./]+`. -/
def pathRe : Regex := .cat (.ch 47) (plusR (.cls false pathIt))

/-- Regex of the URL rule `https?://[^\s]+`. -/
def urlRe : Regex :=
  .cat (rstr "http") (.cat (optR (.ch 115)) (.cat (rstr "://") (plusR (.cls true sIt))))

/-- Regex of the number rule `\b\d+\b`. -/
def numRe : Regex := .cat .wb (.cat (plusR (.cls false dIt)) .wb)

/-- Exactly `n` lowercase hex characters, `[a-f0-9]{n}`. -/
def hexRep (n : Nat) : Regex := .rep n (some n) (.cls false hexIt)

/-- Regex of the UUID rule
`[a-f0-9]{8}-[a-f0-9]{4}-[a-f0-9]{4}-[a-f0-9]{4}-[a-f0-9]{12}`. -/
def uuidRe : Regex :=
  .cat (hexRep 8) (.cat (.ch 45) (.cat (hexRep 4) (.cat (.ch 45)
    (.cat (hexRep 4) (.cat (.ch 45) (.cat (hexRep 4) (.cat (.ch 45) (hexRep 12))))))))

/-- Regex of the hash rule `[a-f0-9]{32,}`. -/
def hashRe : Regex := .rep 32 none (.cls false hexIt)

/-- The normalization substitutions (`NORMALIZATION_RULES`), in source
order: paths, URLs, numbers, UUIDs, hashes. -/
def NORMALIZATION_RULES : List (Regex × String) := [
  ( pathRe, "<PATH>" ), ( urlRe, "<URL>" ), ( numRe, "<NUM>" ),
  ( uuidRe, "<UUID>" ), ( hashRe, "<HASH>" ) ]

/-- The word-bounded, case-insensitive pattern `\b{tool}\b` used for one
tool bucket replacement. -/
def toolRe (tool : String) : Regex := .cat .wb (.cat (rstr tool) .wb)

/-- Apply every tool bucket replacement, in order
(`for tool, bucket in self.buckets.items()`). -/
def applyBuckets (s : List Nat) : List Nat :=
  TOOL_BUCKETS.foldl (fun acc tb => rsubAll true (toolRe tb.1) (encodeStr tb.2) acc) s

/-- Apply every normalization rule, in order
(`for pattern, replacement in self.rules`). -/
def applyRules (s : List Nat) : List Nat :=
  NORMALIZATION_RULES.foldl (fun acc pr => rsubAll false pr.1 (encodeStr pr.2) acc) s

/-- Strip punctuation except word characters, whitespace and the
placeholder delimiters: `re.sub(r'[^\w\s<>]', '', result)`. -/
def stripPunct (s : List Nat) : List Nat :=
  s.filter (fun c => isWordCode c || isPyWs c || c == 60 || c == 62)

/-- Python `str.split()` on code points: split on whitespace runs,
dropping empty pieces. -/
def splitCodesAux : List Nat → List Nat → List (List Nat)
  | [], acc => if acc.isEmpty then [] else [acc.reverse]
  | c :: rest, acc =>
    if isPyWs c then
      if acc.isEmpty then splitCodesAux rest [] else acc.reverse :: splitCodesAux rest []
    else splitCodesAux rest (c :: acc)

/-- Python `str.split()`. -/
def splitCodes (s : List Nat) : List (List Nat) := splitCodesAux s []

/-- Python `' '.join(result.split())`: collapse whitespace. -/
def collapseWs (s : List Nat) : List Nat :=
  List.intercalate [ 32 ] (splitCodes s)

namespace Fingerprinter

/-- Embeds `Fingerprinter.normalize` on code points: lowercase, bucket
the tool names, apply the normalization rules, strip punctuation,
collapse whitespace (the trailing `.strip()` is a no-op after the
join). -/
def normalizeCodes (s : List Nat) : List Nat :=
  if s.isEmpty then [] else
    collapseWs (stripPunct (applyRules (applyBuckets (s.map toLowerCode))))

/-- Embeds `Fingerprinter.normalize` on strings. -/
def normalize (s : String) : String :=
  decodeStr (normalizeCodes (encodeStr s))

end Fingerprinter

/-! ## SHA-256, as `hashlib.sha256(...).hexdigest()` computes it -/

/-- The modulus of 32-bit words. -/
def M32 : Nat := 4294967296

/-- Right rotation of a 32-bit word. -/
def rotr (k n : Nat) : Nat :=
  ((n >>> k) ||| ((n <<< (32 - k)) % M32))

/-- The 64 SHA-256 round constants (FIPS 180-4), written in decimal. -/
def shaK : List Nat := [
  1116352408, 1899447441, 3049323471, 3921009573,
  961987163, 1508970993, 2453635748, 2870763221,
  3624381080, 310598401, 607225278, 1426881987,
  1925078388, 2162078206, 2614888103, 3248222580,
  3835390401, 4022224774, 264347078, 604807628,
  770255983, 1249150122, 1555081692, 1996064986,
  2554220882, 2821834349, 2952996808, 3210313671,
  3336571891, 3584528711, 113926993, 338241895,
  666307205, 773529912, 1294757372, 1396182291,
  1695183700, 1986661051, 2177026350, 2456956037,
  2730485921, 2820302411, 3259730800, 3345764771,
  3516065817, 3600352804, 4094571909, 275423344,
  430227734, 506948616, 659060556, 883997877,
  958139571, 1322822218, 1537002063, 1747873779,
  1955562222, 2024104815, 2227730452, 2361852424,
  2428436474, 2756734187, 3204031479, 3329325298 ]

/-- The SHA-256 initial hash state. -/
structure Hash8 where
  a : Nat
  b : Nat
  c : Nat
  d : Nat
  e : Nat
  f : Nat
  g : Nat
  h : Nat

/-- Initial value of the SHA-256 state (FIPS 180-4), in decimal. -/
def shaH0 : Hash8 :=
  ⟨1779033703, 3144134277, 1013904242, 2773480762,
   1359893119, 2600822924, 528734635, 1541459225⟩

/-- Big-endian 32-bit word from four bytes. -/
def be32 (b0 b1 b2 b3 : Nat) : Nat := ((b0 * 256 + b1) * 256 + b2) * 256 + b3

/-- Group a byte list into big-endian 32-bit words. -/
def toWords : List Nat → List Nat
  | b0 :: b1 :: b2 :: b3 :: rest => be32 b0 b1 b2 b3 :: toWords rest
  | _ => []

/-- Message-schedule sigma 0. -/
def sSig0 (x : Nat) : Nat := rotr 7 x ^^^ rotr 18 x ^^^ (x >>> 3)

/-- Message-schedule sigma 1. -/
def sSig1 (x : Nat) : Nat := rotr 17 x ^^^ rotr 19 x ^^^ (x >>> 10)

/-- Extend the 16 block words to the 64 schedule words. -/
def extendW : Nat → List Nat → List Nat
  | 0, w => w
  | n+1, w =>
    let L := w.length
    let nw := (sSig1 (w.getD (L - 2) 0) + w.getD (L - 7) 0 +
      sSig0 (w.getD (L - 15) 0) + w.getD (L - 16) 0) % M32
    extendW n (w ++ [nw])

/-- One SHA-256 compression round. -/
def compressStep (st : Hash8) (kw : Nat × Nat) : Hash8 :=
  let S1 := rotr 6 st.e ^^^ rotr 11 st.e ^^^ rotr 25 st.e
  let ch := (st.e &&& st.f) ^^^ ((4294967295 - st.e) &&& st.g)
  let t1 := (st.h + S1 + ch + kw.1 + kw.2) % M32
  let S0 := rotr 2 st.a ^^^ rotr 13 st.a ^^^ rotr 22 st.a
  let mj := (st.a &&& st.b) ^^^ (st.a &&& st.c) ^^^ (st.b &&& st.c)
  let t2 := (S0 + mj) % M32
  ⟨(t1 + t2) % M32, st.a, st.b, st.c, (st.d + t1) % M32, st.e, st.f, st.g⟩

/-- Compress one 64-byte block into the running state. -/
def processBlock (h0 : Hash8) (block : List Nat) : Hash8 :=
  let w := extendW 48 (toWords block)
  let st := (shaK.zip w).foldl compressStep h0
  ⟨(h0.a + st.a) % M32, (h0.b + st.b) % M32, (h0.c + st.c) % M32,
   (h0.d + st.d) % M32, (h0.e + st.e) % M32, (h0.f + st.f) % M32,
   (h0.g + st.g) % M32, (h0.h + st.h) % M32⟩

/-- Big-endian bytes of the 64-bit bit length. -/
def be64 (n : Nat) : List Nat :=
  [ (n >>> 56) % 256, (n >>> 48) % 256, (n >>> 40) % 256, (n >>> 32) % 256,
    (n >>> 24) % 256, (n >>> 16) % 256, (n >>> 8) % 256, n % 256 ]

/-- SHA-256 padding: append `0x80`, zeros to 56 mod 64, then the bit
length. -/
def padMsg (msg : List Nat) : List Nat :=
  let L := msg.length
  msg ++ 128 :: List.replicate ((119 - (L % 64)) % 64) 0 ++ be64 (L * 8)

/-- Cut a byte list into 64-byte blocks. -/
def chunks64 : Nat → List Nat → List (List Nat)
  | 0, _ => []
  | f+1, l => if l.isEmpty then [] else l.take 64 :: chunks64 f (l.drop 64)

/-- Hex character code of a nibble (lowercase). -/
def hexDigit (n : Nat) : Nat := if n < 10 then 48 + n else 87 + n

/-- Eight lowercase hex character codes of a 32-bit word. -/
def hexWord (n : Nat) : List Nat :=
  [ hexDigit ((n >>> 28) % 16), hexDigit ((n >>> 24) % 16),
    hexDigit ((n >>> 20) % 16), hexDigit ((n >>> 16) % 16),
    hexDigit ((n >>> 12) % 16), hexDigit ((n >>> 8) % 16),
    hexDigit ((n >>> 4) % 16), hexDigit (n % 16) ]

/-- SHA-256 lowercase hex digest of a byte list. -/
def sha256hex (msg : List Nat) : String :=
  let padded := padMsg msg
  let st := (chunks64 (padded.length + 1) padded).foldl processBlock shaH0
  decodeStr (hexWord st.a ++ hexWord st.b ++ hexWord st.c ++ hexWord st.d ++
    hexWord st.e ++ hexWord st.f ++ hexWord st.g ++ hexWord st.h)

/-- UTF-8 bytes of one code point (as Python `str.encode`). -/
def utf8Code (n : Nat) : List Nat :=
  if n < 128 then [ n ]
  else if n < 2048 then [ 192 ||| (n >>> 6), 128 ||| (n &&& 63) ]
  else if n < 65536 then
    [ 224 ||| (n >>> 12), 128 ||| ((n >>> 6) &&& 63), 128 ||| (n &&& 63) ]
  else
    [ 240 ||| (n >>> 18), 128 ||| ((n >>> 12) &&& 63),
      128 ||| ((n >>> 6) &&& 63), 128 ||| (n &&& 63) ]

/-- UTF-8 encoding of a code point list. -/
def utf8Encode (l : List Nat) : List Nat := l.flatMap utf8Code

namespace Fingerprinter

/-- Embeds `Fingerprinter.fingerprint`: the SHA-256 hex digest of
`f"{candidate_type}|{self.normalize(trigger)}|{self.normalize(action)}"`. -/
def fingerprint (candidate_type trigger action : String) : String :=
  sha256hex (utf8Encode (encodeStr
    (candidate_type ++ "|" ++ normalize trigger ++ "|" ++ normalize action)))

end Fingerprinter

/-! ## Generic string helpers shared by several components -/

/-- The apostrophe as a one-character string. -/
def apoS : String := String.mk [ Char.ofNat 39 ]

/-- Python `str.split()` on strings. -/
def pysplit (s : String) : List String :=
  (splitCodes (encodeStr s)).map decodeStr

/-- ASCII `str.lower()` on strings. -/
def lowerStr (s : String) : String :=
  decodeStr ((encodeStr s).map toLowerCode)

/-- Python slice `s[:n]` on code points. -/
def pyTake (n : Nat) (s : String) : String :=
  decodeStr ((encodeStr s).take n)

/-- Python `s.startswith('-')`. -/
def startsDash (s : String) : Bool :=
  match encodeStr s with
  | 45 :: _ => true
  | _ => false

/-- Is the needle a prefix of the haystack (on code points)? -/
def isPreAt : List Nat → List Nat → Bool
  | [], _ => true
  | _ :: _, [] => false
  | n :: ns, h :: hs => n == h && isPreAt ns hs

/-- Scan for `needle in hay` (code points). -/
def containsAux (needle : List Nat) : List Nat → Bool
  | [] => isPreAt needle []
  | c :: rest => isPreAt needle (c :: rest) || containsAux needle rest

/-- Python `needle in hay` on strings. -/
def containsSub (hay needle : String) : Bool :=
  containsAux (encodeStr needle) (encodeStr hay)

/-- Python `needle.lower() in hay.lower()`. -/
def lowContains (hay needle : String) : Bool :=
  containsAux ((encodeStr needle).map toLowerCode) ((encodeStr hay).map toLowerCode)

/-- Keep the first occurrence of each element (the set semantics of the
Python `set(...)` constructions; CPython leaves set iteration order
unspecified, the embedding fixes first-occurrence order, which is
exact for the singleton sets the claims exercise). -/
def dedupFirstAux [BEq α] : List α → List α → List α
  | [], _ => []
  | x :: xs, seen =>
    if seen.contains x then dedupFirstAux xs seen
    else x :: dedupFirstAux xs (x :: seen)

/-- First-occurrence deduplication. -/
def dedupFirst [BEq α] (l : List α) : List α := dedupFirstAux l []

/-- Last `n` elements of a list (Python `l[-n:]`). -/
def takeLast (n : Nat) (l : List α) : List α := l.drop (l.length - n)

/-! ## Root-cause analyzer (`root_cause_analyzer.py`) -/

/-- One observed command execution (`CommandVariation`). -/
structure CommandVariation where
  command : String
  exit_code : Int
  stderr : String
  timestamp : String

/-- Property `succeeded`: `exit_code == 0`. -/
def CommandVariation.succeeded (v : CommandVariation) : Bool :=
  v.exit_code == 0

/-- Property `base_command`: lowercase of the first one or two
whitespace-delimited tokens. -/
def CommandVariation.base_command (v : CommandVariation) : String :=
  match pysplit v.command with
  | p1 :: p2 :: _ => lowerStr (p1 ++ " " ++ p2)
  | [ p1 ] => lowerStr p1
  | [] => ""

/-- A sequence of related command attempts (`CommandSequence`). -/
structure CommandSequence where
  base_command : String
  variations : List CommandVariation

/-- Property `eventually_succeeded`. -/
def CommandSequence.eventually_succeeded (s : CommandSequence) : Bool :=
  s.variations.any (·.succeeded)

/-- Property `success_variation`: the first successful variation. -/
def CommandSequence.success_variation (s : CommandSequence) : Option CommandVariation :=
  s.variations.find? (·.succeeded)

/-- Property `failure_variations`. -/
def CommandSequence.failure_variations (s : CommandSequence) : List CommandVariation :=
  s.variations.filter (fun v => ! v.succeeded)

/-- Property `last_failure_before_success`.  The source guards with
`if success_idx and success_idx > 0`, so a success at index 0 (a falsy
index) yields `None` exactly as a missing success does. -/
def CommandSequence.last_failure_before_success (s : CommandSequence) :
    Option CommandVariation :=
  match s.variations.findIdx? (·.succeeded) with
  | some (i+1) => s.variations.get? i
  | _ => none

/-- The outcome of `_diff_commands`, one constructor per `type` value. -/
inductive CmdDiff where
  | flag_change (added removed : List String)
  | subcommand_change (src dst : String)
  | argument_change (src dst : List String)
  | unknown_change (src dst : String)
deriving DecidableEq

/-- The `type` string of a diff. -/
def CmdDiff.typeStr : CmdDiff → String
  | .flag_change _ _ => "flag_change"
  | .subcommand_change _ _ => "subcommand_change"
  | .argument_change _ _ => "argument_change"
  | .unknown_change _ _ => "unknown_change"

/-- Embeds `RootCauseAnalyzer._diff_commands`: compare flag sets, then
the second positional token, then the non-flag arguments. -/
def diff_commands (cmd1 cmd2 : String) : Option CmdDiff :=
  let parts1 := pysplit cmd1
  let parts2 := pysplit cmd2
  if parts1 == parts2 then none
  else
    let flags1 := dedupFirst (parts1.filter startsDash)
    let flags2 := dedupFirst (parts2.filter startsDash)
    let added := flags2.filter (fun f => ! flags1.contains f)
    let removed := flags1.filter (fun f => ! flags2.contains f)
    if ! added.isEmpty || ! removed.isEmpty then
      some (.flag_change added removed)
    else
      match parts1, parts2 with
      | p10 :: p11 :: _, p20 :: p21 :: _ =>
        if p10 == p20 && p11 != p21 then
          some (.subcommand_change p11 p21)
        else
          let args1 := parts1.filter (fun p => ! startsDash p)
          let args2 := parts2.filter (fun p => ! startsDash p)
          if args1 != args2 then some (.argument_change args1 args2)
          else some (.unknown_change cmd1 cmd2)
      | _, _ =>
        let args1 := parts1.filter (fun p => ! startsDash p)
        let args2 := parts2.filter (fun p => ! startsDash p)
        if args1 != args2 then some (.argument_change args1 args2)
        else some (.unknown_change cmd1 cmd2)

/-- One entry of the `patterns` list built by
`_detect_variation_patterns`. -/
structure VariationPattern where
  from_index : Nat
  to_index : Nat
  change_type : String
  details : CmdDiff
  succeeded_after : Bool

/-- Walk adjacent variations accumulating their diffs. -/
def detectVariationAux : Nat → List CommandVariation → List VariationPattern
  | _, [] => []
  | _, [ _ ] => []
  | i, v1 :: v2 :: rest =>
    (match diff_commands v1.command v2.command with
     | some d => [ { from_index := i, to_index := i + 1, change_type := d.typeStr,
                     details := d, succeeded_after := v2.succeeded } ]
     | none => []) ++ detectVariationAux (i + 1) (v2 :: rest)

/-- Embeds `RootCauseAnalyzer._detect_variation_patterns`. -/
def detect_variation_patterns (s : CommandSequence) : List VariationPattern :=
  detectVariationAux 0 s.variations

/-- The outcome of `_extract_resolution`, one constructor per `type`. -/
inductive Resolution where
  | unknownRes
  | retry_succeeded
  | fixed_by (d : CmdDiff) (working_command : String)
deriving DecidableEq

/-- The `type` string of a resolution. -/
def Resolution.typeStr : Resolution → String
  | .unknownRes => "unknown"
  | .retry_succeeded => "retry_succeeded"
  | .fixed_by d _ => "fixed_by_" ++ d.typeStr

/-- Embeds `RootCauseAnalyzer._extract_resolution`. -/
def extract_resolution (s : CommandSequence) : Resolution :=
  match s.success_variation, s.last_failure_before_success with
  | some success, some last_failure =>
    (match diff_commands last_failure.command success.command with
     | none => .retry_succeeded
     | some d => .fixed_by d success.command)
  | _, _ => .unknownRes

/-- The curated knowledge table `COMMAND_KNOWLEDGE`, reduced to the
`common_issues` maps that `_identify_root_cause` consults (the `flags`
lists in the source are never read by any method). -/
def COMMAND_KNOWLEDGE : List (String × List (String × String)) := [
  ( "gh pr", [
      ( "merge queue", "Use --auto flag or GraphQL enqueuePullRequest mutation" ),
      ( "not allowed", "Check repo settings for allowed merge methods" ),
      ( "required status", "Wait for CI checks to pass first" ) ] ),
  ( "gh api", [
      ( "404", "Check endpoint path and resource existence" ),
      ( "422", "Validate request body JSON structure" ),
      ( "graphql", "Use proper GraphQL query format with variables" ) ] ),
  ( "git push", [
      ( "protected", "Create PR instead of direct push" ),
      ( "non-fast-forward", "Pull/rebase first or use --force-with-lease" ) ] ),
  ( "composer", [
      ( "ext-", "Install PHP extension or use --ignore-platform-req=ext-*" ),
      ( "platform", "Check PHP version or configure platform in composer.json" ),
      ( "conflict", "Use -W flag for root package updates" ) ] ),
  ( "npm", [
      ( "peer dep", "Use --legacy-peer-deps flag" ),
      ( "ERESOLVE", "Check version conflicts or use --force" ) ] ) ]

/-- The coarse error categories of `_identify_root_cause`. -/
def ERROR_CATEGORIES : List (String × List String) := [
  ( "authentication", [ "401", "403", "unauthorized", "forbidden", "token", "credential" ] ),
  ( "not_found", [ "404", "not found", "does not exist", "no such" ] ),
  ( "permission", [ "permission denied", "access denied", "EPERM" ] ),
  ( "syntax", [ "syntax error", "unexpected", "invalid", "malformed" ] ),
  ( "dependency", [ "not found", "missing", "required", "dependency" ] ) ]

/-- The outcome of `_identify_root_cause`. -/
inductive RootCause where
  | known_issue (pattern suggested_fix : String)
  | category (name evidence : String)
  | unknownCause (evidence : String)

/-- The `type` string of a root cause. -/
def RootCause.typeStr : RootCause → String
  | .known_issue _ _ => "known_issue"
  | .category n _ => n
  | .unknownCause _ => "unknown"

/-- Embeds `RootCauseAnalyzer._identify_root_cause`: curated knowledge
first, then coarse categories, then the first raw error message. -/
def identify_root_cause (s : CommandSequence) : RootCause :=
  let errors := (s.failure_variations.map (·.stderr)).filter (· ≠ "")
  let known := COMMAND_KNOWLEDGE.firstM (fun ck =>
    if containsSub s.base_command ck.1 then
      ck.2.firstM (fun es =>
        (errors.find? (fun err => lowContains err es.1)).map
          (fun _ => RootCause.known_issue es.1 es.2))
    else none)
  match known with
  | some rc => rc
  | none =>
    let cat := ERROR_CATEGORIES.firstM (fun cp =>
      (errors.find? (fun err => cp.2.any (fun p => lowContains err p))).map
        (fun err => RootCause.category cp.1 (pyTake 200 err)))
    match cat with
    | some rc => rc
    | none =>
      .unknownCause (match errors with
        | err :: _ => pyTake 200 err
        | [] => "No error message captured")

/-- One actionable insight (title, trigger, action, confidence,
evidence type). -/
structure Insight where
  title : String
  trigger : String
  action : String
  confidence : ℚ
  evidence_type : String

/-- Embeds `RootCauseAnalyzer._generate_actionable_insight`, keyed on
the resolution type; a flag change with no added flag falls through to
the working-command fallback, as in the source. -/
def generate_actionable_insight (s : CommandSequence) (res : Resolution) :
    Option Insight :=
  let fallback := fun (working : String) => some
    { title := "Correct syntax for " ++ s.base_command,
      trigger := "when running " ++ s.base_command,
      action := "use: " ++ pyTake 100 working,
      confidence := (75 : ℚ) / 100,
      evidence_type := "working_example" }
  match res with
  | .fixed_by (.flag_change added _removed) working =>
    if ! added.isEmpty then some
      { title := "Use " ++ String.intercalate ", " added ++ " flags with " ++ s.base_command,
        trigger := "when running " ++ s.base_command,
        action := "include flags " ++ String.intercalate ", " added ++ " to avoid failures",
        confidence := (85 : ℚ) / 100,
        evidence_type := "resolved_failure" }
    else fallback working
  | .fixed_by (.subcommand_change src dst) _working => some
      { title := "Use " ++ apoS ++ dst ++ apoS ++ " instead of " ++ apoS ++ src ++ apoS,
        trigger := "when running " ++ s.base_command,
        action := "use subcommand " ++ apoS ++ dst ++ apoS ++ " instead of " ++ apoS ++ src ++ apoS,
        confidence := (80 : ℚ) / 100,
        evidence_type := "resolved_failure" }
  | .retry_succeeded => some
      { title := "Retry " ++ s.base_command ++ " on transient failure",
        trigger := "when " ++ s.base_command ++ " fails with transient error",
        action := "implement retry logic - this command can fail transiently",
        confidence := (65 : ℚ) / 100,
        evidence_type := "transient_failure" }
  | .fixed_by _ working => fallback working
  | .unknownRes => none

/-- Is the code a separator in `error[:\s]+`, i.e. a colon or
whitespace? -/
def sepCode (c : Nat) : Bool := c == 58 || isPyWs c

/-- Length of the maximal prefix run satisfying the predicate. -/
def runLen (p : Nat → Bool) : List Nat → Nat
  | [] => 0
  | c :: rest => if p c then runLen p rest + 1 else 0

/-- Backtracking over the separator length of `error[:\s]+(.{10,60})`:
try the greedy separator run first, then shorter ones, capturing up to
60 non-newline characters whenever at least 10 are available. -/
def findCap (s : List Nat) : Nat → Option (List Nat)
  | 0 => none
  | m+1 =>
    let rest := s.drop (m+1)
    let avail := runLen (fun c => c != 10) rest
    if 10 ≤ avail then some (rest.take (min 60 avail)) else findCap s m

/-- Scan for the leftmost match of `error[:\s]+(.{10,60})`
(IGNORECASE), returning the capture group. -/
def errSearch : Nat → List Nat → Option (List Nat)
  | 0, _ => none
  | f+1, s =>
    match s with
    | [] => none
    | _ :: rest =>
      if isPreAt [ 101, 114, 114, 111, 114 ] (s.map toLowerCode) then
        match findCap (s.drop 5) (runLen sepCode (s.drop 5)) with
        | some cap => some cap
        | none => errSearch f rest
      else errSearch f rest

/-- The capture of `re.search(r'error[:\s]+(.{10,60})', evidence,
re.IGNORECASE)`. -/
def errorExtract (s : String) : Option String :=
  (errSearch ((encodeStr s).length + 1) (encodeStr s)).map decodeStr

/-- Embeds `RootCauseAnalyzer._generate_failure_insight`. -/
def generate_failure_insight (s : CommandSequence) (rc : RootCause) :
    Option Insight :=
  match rc with
  | .known_issue pat fix => some
      { title := "Fix " ++ pat ++ " issue with " ++ s.base_command,
        trigger := "when " ++ s.base_command ++ " fails with " ++ pat,
        action := fix,
        confidence := (80 : ℚ) / 100,
        evidence_type := "known_pattern" }
  | .category "authentication" _ => some
      { title := "Check credentials before " ++ s.base_command,
        trigger := "before running " ++ s.base_command,
        action := "verify authentication tokens/credentials are valid and have required permissions",
        confidence := (75 : ℚ) / 100,
        evidence_type := "error_pattern" }
  | .category "permission" _ => some
      { title := "Fix permissions for " ++ s.base_command,
        trigger := "when " ++ s.base_command ++ " fails with permission error",
        action := "check file/directory permissions or use elevated privileges if appropriate",
        confidence := (70 : ℚ) / 100,
        evidence_type := "error_pattern" }
  | .category _ evidence =>
    if evidence ≠ "" then
      match errorExtract evidence with
      | some cap => some
          { title := "Handle " ++ apoS ++ pyTake 30 cap ++ "..." ++ apoS ++ " in " ++ s.base_command,
            trigger := "when " ++ s.base_command ++ " shows this error",
            action := "investigate: " ++ pyTake 100 evidence,
            confidence := (50 : ℚ) / 100,
            evidence_type := "error_message" }
      | none => none
    else none
  | .unknownCause evidence =>
    if evidence ≠ "" then
      match errorExtract evidence with
      | some cap => some
          { title := "Handle " ++ apoS ++ pyTake 30 cap ++ "..." ++ apoS ++ " in " ++ s.base_command,
            trigger := "when " ++ s.base_command ++ " shows this error",
            action := "investigate: " ++ pyTake 100 evidence,
            confidence := (50 : ℚ) / 100,
            evidence_type := "error_message" }
      | none => none
    else none

/-! ## Signal detector (`detect_signals.py`)

The pattern families below transcribe `SignalDetector._default_config`
(the authoritative defaults); every family is compiled with
`re.IGNORECASE` in the source, so each is matched case-insensitively
here. -/

/-- Optional apostrophe, the `'?` of patterns such as `don'?t`. -/
def apo? : Regex := optR (.ch 39)

/-- The `correction` pattern family. -/
def CORRECTION_PATTERNS : List Regex := [
  .cat .wb (.cat (rstr "no") .wb),
  .cat .wb (.cat (rstr "stop") .wb),
  .cat .wb (.cat (rstr "don") (.cat apo? (.cat (rstr "t") .wb))),
  rstr "i said",
  .cat (rstr "you didn") (.cat apo? (rstr "t")),
  rstr "why did you",
  .cat (rstr "that") (.cat (.ch 39) (rstr "s wrong")),
  rstr "not what i",
  rstr "i meant",
  rstr "should have" ]

/-- The `escalation` pattern family.  Note that `[A-Z]{3,}` is compiled
with IGNORECASE like the rest of the family, so it matches any run of
three letters. -/
def ESCALATION_PATTERNS : List Regex := [
  .rep 3 none (.cls false [ .range 65 90 ]),
  .rep 2 none (.ch 33),
  .cat .wb (.cat (rstr "again") .wb),
  rstr "for the last time",
  rstr "how many times",
  rstr "already told you",
  rstr "LITERALLY" ]

/-- The `failure_stderr` pattern family, with the source pattern text
kept alongside each regex (the text is what the emitted signal
records in `stderr_matches`). -/
def FAILURE_STDERR_PATTERNS : List (String × Regex) := [
  ( "ENOENT", rstr "ENOENT" ),
  ( "ECONNREFUSED", rstr "ECONNREFUSED" ),
  ( "ETIMEDOUT", rstr "ETIMEDOUT" ),
  ( "EPERM", rstr "EPERM" ),
  ( "command not found", rstr "command not found" ),
  ( "permission denied", rstr "permission denied" ),
  ( "no such file", rstr "no such file" ),
  ( "merge queue", rstr "merge queue" ),
  ( "not allowed", rstr "not allowed" ),
  ( "Cannot use", rstr "Cannot use" ),
  ( "merge strategy", rstr "merge strategy" ),
  ( "is not mergeable", rstr "is not mergeable" ),
  ( "blocked", rstr "blocked" ),
  ( "required status", rstr "required status" ),
  ( "protected branch", rstr "protected branch" ),
  ( "not fast-forward", rstr "not fast-forward" ),
  ( "401", rstr "401" ), ( "403", rstr "403" ), ( "404", rstr "404" ),
  ( "422", rstr "422" ), ( "500", rstr "500" ), ( "502", rstr "502" ),
  ( "503", rstr "503" ),
  ( "unauthorized", rstr "unauthorized" ),
  ( "forbidden", rstr "forbidden" ),
  ( "rate limit", rstr "rate limit" ),
  ( "failed to", rstr "failed to" ),
  ( "error:", rstr "error:" ),
  ( "Error:", rstr "Error:" ),
  ( "FAILED", rstr "FAILED" ),
  ( "compilation failed", rstr "compilation failed" ),
  ( "build failed", rstr "build failed" ),
  ( "test failed", rstr "test failed" ),
  ( "npm ERR", rstr "npm ERR" ),
  ( "yarn error", rstr "yarn error" ),
  ( "pip error", rstr "pip error" ),
  ( "go: ", rstr "go: " ),
  ( "composer.*(?:error|failed)",
    .cat (rstr "composer") (.cat (.star dotR) (altL [ rstr "error", rstr "failed" ])) ),
  ( "--ignore-platform-req", rstr "--ignore-platform-req" ),
  ( "ext-\\w+", .cat (rstr "ext-") (plusR (.cls false wIt)) ),
  ( "php.*(?:fatal|error|warning)",
    .cat (rstr "php") (.cat (.star dotR)
      (altL [ rstr "fatal", rstr "error", rstr "warning" ])) ),
  ( "require.*php", .cat (rstr "require") (.cat (.star dotR) (rstr "php")) ),
  ( "platform.*requirement",
    .cat (rstr "platform") (.cat (.star dotR) (rstr "requirement")) ),
  ( "fatal:", rstr "fatal:" ),
  ( "panic:", rstr "panic:" ),
  ( "exception", rstr "exception" ),
  ( "traceback", rstr "traceback" ) ]

/-- The `failure_commands` pattern family. -/
def FAILURE_COMMAND_PATTERNS : List (String × Regex) := [
  ( "gh pr merge", rstr "gh pr merge" ),
  ( "git push", rstr "git push" ),
  ( "git rebase", rstr "git rebase" ),
  ( "npm install", rstr "npm install" ),
  ( "docker build", rstr "docker build" ),
  ( "composer (?:install|update|require|remove)",
    .cat (rstr "composer ")
      (altL [ rstr "install", rstr "update", rstr "require", rstr "remove" ]) ),
  ( "phpunit", rstr "phpunit" ),
  ( "phpstan", rstr "phpstan" ) ]

/-- The `skill_supplement` pattern family. -/
def SKILL_SUPPLEMENT_PATTERNS : List Regex := [
  .cat (rstr "also") (.cat ws1R
    (altL [ rstr "need", rstr "remember", .cat (rstr "make") (.cat ws1R (rstr "sure")) ])),
  .cat (rstr "but") (.cat ws1R
    (altL [ rstr "also",
      .cat (rstr "don") (.cat apo? (.cat (rstr "t") (.cat ws1R (rstr "forget")))) ])),
  .cat (optR (.cat (rstr "the") ws1R)) (.cat (rstr "skill") (.cat ws1R
    (altL [ .cat (rstr "doesn") (.cat apo? (rstr "t")),
      .cat (rstr "does") (.cat ws1R (rstr "not")),
      .cat (rstr "didn") (.cat apo? (rstr "t")) ]))),
  .cat (altL [ rstr "it", rstr "skill" ]) (.cat ws1R
    (altL [ rstr "missed", rstr "forgot", .cat (rstr "should") (.cat ws1R (rstr "also")) ])),
  .cat (rstr "add") (.cat ws1R (.cat (optR (.cat (rstr "this") ws1R))
    (.cat (rstr "to") (.cat ws1R (.cat (optR (.cat (rstr "the") ws1R)) (rstr "skill")))))),
  .cat (rstr "update") (.cat ws1R (.cat (optR (.cat (rstr "the") ws1R)) (rstr "skill"))),
  .cat (rstr "skill") (.cat ws1R (.cat (optR (.cat (rstr "is") ws1R))
    (altL [ rstr "wrong", rstr "outdated", rstr "incomplete" ]))) ]

/-- The `verification_question` pattern family. -/
def VERIFICATION_QUESTION_PATTERNS : List Regex := [
  .cat (rstr "did you") (.cat ws1R (.cat (optR (.cat (rstr "also") ws1R))
    (altL [ rstr "run", rstr "test", rstr "check", rstr "update", rstr "add",
      rstr "fix", rstr "commit", rstr "push", rstr "build" ]))),
  .cat (rstr "have you") (.cat ws1R (.cat (optR (.cat (rstr "also") ws1R))
    (altL [ rstr "run", rstr "tested", rstr "checked", rstr "updated",
      rstr "added", rstr "fixed" ]))),
  .cat (rstr "was") (.cat ws1R (.cat (altL [ rstr "the", rstr "this", rstr "that" ])
    (.cat ws1R (altL [ rstr "test", rstr "build", rstr "check" ])))),
  .cat (altL [ rstr "were", rstr "are" ]) (.cat ws1R
    (.cat (optR (.cat (rstr "the") ws1R)) (.cat (rstr "test") (.cat (optR (.ch 115))
      (.cat ws1R (altL [ rstr "run", rstr "passed", rstr "executed" ])))))),
  .cat (rstr "what about") (.cat ws1R (.cat (optR (.cat (rstr "the") ws1R))
    (altL [ .cat (rstr "test") (optR (.ch 115)), rstr "build", rstr "commit" ]))),
  .cat (rstr "you") (.cat ws1R (.cat
    (altL [ .cat (rstr "didn") (.cat apo? (rstr "t")),
      .cat (rstr "did") (.cat ws1R (rstr "not")) ])
    (.cat ws1R (altL [ rstr "run", rstr "test", rstr "check", rstr "commit",
      rstr "push" ])))) ]

/-- A detected signal.  Only the classification (its `signal_type`) and
`confidence` are modelled; the remaining payload entries (matched
pattern texts, context snapshots, extracted names) are diagnostic data
that no claim consults. -/
structure SigOut where
  signal_type : String
  confidence : ℚ

/-- One tool call as recorded in the rolling context. -/
structure ToolCall where
  command : String
  exit_code : Int
  stderr : String
  timestamp : String

/-- The rolling context (`recent_context.json`): the only mutable
shared state of the detector. -/
structure RecentContext where
  tool_calls : List ToolCall
  messages : List String
  assistant_actions : List String

/-- Embeds `_save_recent_context`: each list is trimmed to its last 20
entries (persistence to disk is the identity on the value). -/
def saveRecentContext (c : RecentContext) : RecentContext :=
  { tool_calls := takeLast 20 c.tool_calls,
    messages := takeLast 20 c.messages,
    assistant_actions := takeLast 20 c.assistant_actions }

/-- Embeds `SignalDetector.add_tool_call_context`. -/
def add_tool_call_context (c : RecentContext) (command : String)
    (exit_code : Int) (stderr : String) (now : String) : RecentContext :=
  saveRecentContext
    { c with
      tool_calls := c.tool_calls ++
        [ { command := pyTake 500 command, exit_code := exit_code,
            stderr := if stderr = "" then "" else pyTake 500 stderr,
            timestamp := now } ] }

/-- How many patterns of a family match the content. -/
def matchCount (pats : List Regex) (content : String) : Nat :=
  (pats.filter (fun p => rsearch true p (encodeStr content))).length

/-- Embeds `SignalDetector.detect_correction`. -/
def detect_correction (content : String) : Option SigOut :=
  if matchCount CORRECTION_PATTERNS content ≠ 0 then
    some { signal_type := "USER_CORRECTION",
           confidence := min ((3 : ℚ) / 10 + (matchCount CORRECTION_PATTERNS content : ℚ) * (2 / 10)) 1 }
  else none

/-- The un-ignorecased `\b[A-Z]{3,}\b` used by `re.findall` to count
ALL-CAPS words. -/
def capsRe : Regex := .cat .wb (.cat (.rep 3 none (.cls false [ .range 65 90 ])) .wb)

/-- Embeds `SignalDetector.detect_escalation`. -/
def detect_escalation (content : String) : Option SigOut :=
  if matchCount ESCALATION_PATTERNS content ≠ 0 ||
      2 ≤ rcount false capsRe (encodeStr content) ||
      3 ≤ ((encodeStr content).filter (fun c => c == 33)).length then
    some { signal_type := "TONE_ESCALATION",
           confidence := min ((2 : ℚ) / 10 +
             (rcount false capsRe (encodeStr content) : ℚ) * (1 / 10) +
             (((encodeStr content).filter (fun c => c == 33)).length : ℚ) * (5 / 100))
             ((8 : ℚ) / 10) }
  else none

/-- The word set of a message: deduplicated lowercase
whitespace-delimited tokens, Python `set(text.lower().split())`. -/
def wordSet (s : String) : List (List Nat) :=
  dedupFirst (splitCodes ((encodeStr s).map toLowerCode))

/-- Whether the Jaccard similarity of the current word set with a prior
message strictly exceeds 0.5 (`intersection/union > 0.5`, exact for
every set size a float can tell apart from one half). -/
def simGtHalf (cw : List (List Nat)) (prev : String) : Bool :=
  let pw := wordSet prev
  if pw.isEmpty then false
  else
    let inter := (cw.filter (fun w => pw.contains w)).length
    let unio := (dedupFirst (cw ++ pw)).length
    decide (unio < 2 * inter)

/-- Number of messages among the last 10 of the history whose
similarity with the content exceeds 0.5. -/
def countSimilar (msgs : List String) (content : String) : Nat :=
  ((takeLast 10 msgs).filter (simGtHalf (wordSet content))).length

/-- Embeds `SignalDetector.detect_repetition` over the message history
it reads from the rolling context. -/
def detect_repetition (msgs : List String) (content : String) : Option SigOut :=
  if msgs.isEmpty then none
  else
    if 2 ≤ countSimilar msgs content then
      some { signal_type := "REPETITION",
             confidence := min ((4 : ℚ) / 10 + (countSimilar msgs content : ℚ) * (15 / 100))
               ((95 : ℚ) / 100) }
    else none

/-- Embeds `SignalDetector.detect_skill_supplement`. -/
def detect_skill_supplement (content : String) : Option SigOut :=
  if matchCount SKILL_SUPPLEMENT_PATTERNS content ≠ 0 then
    some { signal_type := "SKILL_SUPPLEMENT",
           confidence := min ((5 : ℚ) / 10 +
             (matchCount SKILL_SUPPLEMENT_PATTERNS content : ℚ) * (15 / 100)) ((9 : ℚ) / 10) }
  else none

/-- Embeds `SignalDetector.detect_verification_question`. -/
def detect_verification_question (content : String) : Option SigOut :=
  if matchCount VERIFICATION_QUESTION_PATTERNS content ≠ 0 then
    some { signal_type := "VERIFICATION_QUESTION",
           confidence := min ((6 : ℚ) / 10 +
             (matchCount VERIFICATION_QUESTION_PATTERNS content : ℚ) * (1 / 10)) ((85 : ℚ) / 100) }
  else none

/-- List of a possibly missing element. -/
def optL : Option α → List α
  | some a => [ a ]
  | none => []

/-- Embeds `SignalDetector.process_user_message`: the message is
appended to the rolling history (truncated to 500 characters) before
any detector runs, then the five message detectors fire in source
order. -/
def process_user_message (ctx : RecentContext) (content : String) :
    List SigOut × RecentContext :=
  let ctx := saveRecentContext { ctx with messages := ctx.messages ++ [ pyTake 500 content ] }
  let sigs :=
    optL (detect_correction content) ++ optL (detect_escalation content) ++
    optL (detect_repetition ctx.messages content) ++
    optL (detect_skill_supplement content) ++
    optL (detect_verification_question content)
  (sigs, ctx)

/-- Embeds `SignalDetector._commands_similar`: same lowercase
first-two-token base command. -/
def commands_similar (cmd1 cmd2 : String) : Bool :=
  lowerStr (String.intercalate " " ((pysplit cmd1).take 2)) ==
    lowerStr (String.intercalate " " ((pysplit cmd2).take 2))

/-- A COMMAND_FAILURE signal, with the fields its payload carries
(the preceding-context snapshot, a copy of slices of the rolling
context, is omitted). -/
structure FailureSignal where
  exit_code : Int
  stderr_preview : Option String
  command : Option String
  stderr_matches : List String
  command_matches : List String
  similar_recent_failures : Nat
  confidence : ℚ

/-- The `failure_stderr` pattern texts matching the stderr. -/
def stderrMatchesOf (stderr : String) : List String :=
  if stderr = "" then []
  else (FAILURE_STDERR_PATTERNS.filter
    (fun p => rsearch true p.2 (encodeStr stderr))).map (·.1)

/-- The `failure_commands` pattern texts matching the command. -/
def commandMatchesOf (command : String) : List String :=
  (FAILURE_COMMAND_PATTERNS.filter
    (fun p => rsearch true p.2 (encodeStr command))).map (·.1)

/-- Embeds `SignalDetector.detect_command_failure`, returning the
optional signal together with the updated rolling context: a fully
successful call (exit 0, empty stderr) is recorded and yields no
signal; a call that fails or whose stderr matches a failure pattern is
recorded and yields a signal; anything else leaves the context
untouched and yields no signal. -/
def detect_command_failure (ctx : RecentContext) (exit_code : Int)
    (stderr command now : String) : Option FailureSignal × RecentContext :=
  let recent_failures := (takeLast 10 ctx.tool_calls).filter (fun tc => tc.exit_code ≠ 0)
  let similar := recent_failures.filter (fun f => commands_similar f.command command)
  if exit_code == 0 && stderr == "" then
    (none, add_tool_call_context ctx command exit_code stderr now)
  else
    let ms := stderrMatchesOf stderr
    if exit_code ≠ 0 || ! ms.isEmpty then
      (some { exit_code := exit_code,
              stderr_preview := if stderr = "" then none else some (pyTake 1000 stderr),
              command := if command = "" then none else some (pyTake 500 command),
              stderr_matches := ms,
              command_matches := commandMatchesOf command,
              similar_recent_failures := similar.length,
              confidence := min ((7 : ℚ) / 10 + (similar.length : ℚ) * (1 / 10))
                ((99 : ℚ) / 100) },
       add_tool_call_context ctx command exit_code stderr now)
    else (none, ctx)

/-- The analysis record returned by `analyze_sequence`. -/
structure SeqAnalysis where
  base_command : String
  total_attempts : Nat
  failed_attempts : Nat
  resolved : Bool
  patterns : List VariationPattern
  root_cause : Option RootCause
  resolution : Option Resolution
  actionable_insight : Option Insight

/-- Embeds `RootCauseAnalyzer.analyze_sequence`. -/
def analyze_sequence (s : CommandSequence) : SeqAnalysis :=
  let base :=
    { base_command := s.base_command,
      total_attempts := s.variations.length,
      failed_attempts := s.failure_variations.length,
      resolved := s.eventually_succeeded,
      patterns := ([] : List VariationPattern),
      root_cause := none, resolution := none, actionable_insight := none }
  if s.variations.length < 2 then base
  else
    let pats := detect_variation_patterns s
    if s.eventually_succeeded then
      let res := extract_resolution s
      { base with
        patterns := pats,
        resolution := some res,
        actionable_insight := generate_actionable_insight s res }
    else
      let rc := identify_root_cause s
      { base with
        patterns := pats,
        root_cause := some rc,
        actionable_insight := generate_failure_insight s rc }

/-! ## Ledger (`ledger.py`)

The SQLite `candidates` table is modelled as an ordered association
list keyed by fingerprint; the clock is a parameter. -/

/-- One row of the ledger's `candidates` table. -/
structure LedgerEntry where
  repo_ids : List String
  count : Nat
  status : String
  first_seen : String
  last_seen : String
  updated_at : Option String

/-- The ledger store. -/
abbrev Ledger := List (String × LedgerEntry)

/-- Point lookup by fingerprint (`get_candidate`). -/
def ledgerLookup (db : Ledger) (fp : String) : Option LedgerEntry :=
  (db.find? (fun row => row.1 == fp)).map (·.2)

/-- Embeds `Ledger.add_repo_to_candidate`: update the existing row
(appending the repo id only when new, always incrementing `count`),
or insert a fresh `pending` row. -/
def add_repo_to_candidate (db : Ledger) (fp repo_id now : String) : Ledger :=
  match ledgerLookup db fp with
  | some e =>
    let repo_ids := if e.repo_ids.contains repo_id then e.repo_ids
      else e.repo_ids ++ [ repo_id ]
    db.map (fun row =>
      if row.1 == fp then
        (row.1, { row.2 with
                  repo_ids := repo_ids, count := e.count + 1,
                  last_seen := now, updated_at := some now })
      else row)
  | none =>
    db ++ [ (fp, { repo_ids := [ repo_id ], count := 1, status := "pending",
                   first_seen := now, last_seen := now, updated_at := none }) ]

/-- The record returned by `check_promotion_eligibility`. -/
structure PromotionCheck where
  fingerprint : String
  repo_count : Nat
  repos : List String
  threshold : Nat
  eligible : Bool
  already_promoted : Bool
  current_status : Option String

/-- Embeds `Ledger.check_promotion_eligibility`. -/
def check_promotion_eligibility (db : Ledger) (fp : String) (threshold : Nat) :
    PromotionCheck :=
  let cand := ledgerLookup db fp
  let repos := match cand with
    | some e => e.repo_ids
    | none => []
  let already := match cand with
    | some e => e.status == "promoted"
    | none => false
  { fingerprint := fp, repo_count := repos.length, repos := repos,
    threshold := threshold,
    eligible := decide (threshold ≤ repos.length) && ! already,
    already_promoted := already,
    current_status := cand.map (·.status) }

/-! ## Scope analyzer (`scope_analyzer.py`)

`check_existing_rules` inspects CLAUDE.md files on disk; its outcome is
passed in as an explicit value.  The scores are exact rationals: both
indicator tables carry small integer weights, so every float
comparison the source performs (`* 1.5`, `* 0.8`, `>` , `>=`) is
decided identically on the rationals. -/

/-- The `apps/` project indicator pattern. -/
def appsRe : Regex := rstr "apps/"

/-- The `docker-compose\.` project indicator pattern. -/
def dockerComposeRe : Regex := rstr "docker-compose."

/-- The `\brun\s+tests?\b` global indicator pattern. -/
def runTestsRe : Regex :=
  .cat .wb (.cat (rstr "run") (.cat ws1R
    (.cat (rstr "test") (.cat (optR (.ch 115)) .wb))))

/-- The `\bcommit\s+message` global indicator pattern. -/
def commitMessageRe : Regex :=
  .cat .wb (.cat (rstr "commit") (.cat ws1R (rstr "message")))

/-- The `PROJECT_INDICATORS` table (pattern, weight), matched
case-sensitively against the lowercased text as in the source — so the
`Makefile` pattern can never fire, faithfully to the code.  The
weights are the source's integer constants; scores are kept as `Nat`
and every float comparison of the source is rendered by the exact
integer test it decides (see `ScopeAnalyzer.analyze`). -/
def PROJECT_INDICATORS : List (Regex × Nat) := [
  ( appsRe, 3 ),
  ( rstr "packages/", 2 ),
  ( rstr "src/components/", 2 ),
  ( rstr ".platform.", 3 ),
  ( dockerComposeRe, 2 ),
  ( rstr ".env.", 2 ),
  ( rstr "Makefile", 1 ),
  ( .cat .wb (.cat (altL [ rstr "client", rstr "customer", rstr "vendor" ])
      (.cat ws1R (rstr "name"))), 2 ),
  ( .cat .wb (.cat (altL [ rstr "internal", rstr "proprietary" ]) .wb), 2 ),
  ( .cat .wb (.cat (rstr "api.example.com") .wb), 3 ),
  ( .cat (rstr "pnpm") (.cat ws1R (.cat (rstr "-C") (.cat ws1R (rstr "packages/")))), 3 ),
  ( .cat (rstr "nx") ws1R, 2 ),
  ( .cat (rstr "turbo") .wb, 2 ) ]

/-- The `GLOBAL_INDICATORS` table (pattern, weight). -/
def GLOBAL_INDICATORS : List (Regex × Nat) := [
  ( runTestsRe, 3 ),
  ( .cat .wb (.cat (rstr "small") (.cat ws1R (altL [ rstr "pr", rstr "commit" ]))), 2 ),
  ( commitMessageRe, 2 ),
  ( .cat .wb (.cat (rstr "code") (.cat ws1R (rstr "review"))), 2 ),
  ( .cat .wb (.cat (rstr "diff") (.cat ws1R (rstr "summary"))), 2 ),
  ( .cat .wb (.cat (rstr "verify") (.cat ws1R (rstr "before"))), 2 ),
  ( .cat .wb (.cat (rstr "backup") (.cat ws1R (rstr "first"))), 2 ),
  ( .cat .wb (.cat (rstr "git") .wb), 2 ),
  ( .cat .wb (.cat (rstr "docker") .wb), 2 ),
  ( .cat .wb (.cat (rstr "npm") .wb), 1 ),
  ( .cat .wb (.cat (rstr "pnpm") .wb), 1 ),
  ( .cat .wb (.cat (rstr "yarn") .wb), 1 ),
  ( .cat .wb (.cat (rstr "python") .wb), 1 ),
  ( .cat .wb (.cat (rstr "pytest") .wb), 1 ),
  ( .cat .wb (.cat (rstr "jest") .wb), 1 ),
  ( .cat .wb (.cat (rstr "don") (.cat (.ch 39) (.cat (rstr "t") (.cat ws1R
      (.cat (rstr "edit") (.cat ws1R (rstr "generated"))))))), 3 ),
  ( .cat .wb (.cat (rstr "never") (.cat ws1R
      (.cat (rstr "commit") (.cat ws1R (rstr "secrets"))))), 3 ),
  ( .cat .wb (.cat (rstr "always") (.cat ws1R (rstr "backup"))), 2 ),
  ( .cat .wb (.cat (rstr "command") (.cat ws1R
      (.cat (rstr "not") (.cat ws1R (rstr "found"))))), 2 ) ]

/-- A piece of candidate evidence kept by the failure extractor. -/
structure EvidenceRef where
  event_id : String
  command : String

/-- A learning candidate, with the fields the embedded functions read
or build. -/
structure Candidate where
  id : String
  title : String
  candidate_type : String
  trigger : String
  action : String
  evidence : List EvidenceRef
  confidence : ℚ
  status : String
  created_at : String
  failure_count : Nat
  fingerprint : String

/-- The text the scope analyzer scores:
`f"{trigger} {action} {title}"`. -/
def textOf (c : Candidate) : String :=
  c.trigger ++ " " ++ c.action ++ " " ++ c.title

/-- Weighted keyword score of one indicator table against the
lowercased text. -/
def scoreOf (inds : List (Regex × Nat)) (tl : List Nat) : Nat :=
  (inds.map (fun pw => if rsearch false pw.1 tl then pw.2 else 0)).sum

/-- Embeds `ScopeAnalyzer.calculate_scores`:
`(project_score, global_score)`. -/
def calculate_scores (c : Candidate) : Nat × Nat :=
  let tl := encodeStr (lowerStr (textOf c))
  (scoreOf PROJECT_INDICATORS tl, scoreOf GLOBAL_INDICATORS tl)

/-- Outcome of `check_existing_rules` (a similarity probe of the global
and project CLAUDE.md files, external state passed by value). -/
structure ExistingRules where
  exists_global : Bool
  exists_project : Bool

/-- The record returned by `check_cross_repo_presence`. -/
structure CrossRepo where
  repo_count : Nat
  repos : List String
  total_count : Option Nat
  status : Option String

/-- Embeds `ScopeAnalyzer.check_cross_repo_presence` against the ledger
store. -/
def check_cross_repo_presence (db : Ledger) (fp : String) : CrossRepo :=
  match ledgerLookup db fp with
  | none => { repo_count := 0, repos := [], total_count := none, status := none }
  | some e =>
    { repo_count := e.repo_ids.length, repos := e.repo_ids,
      total_count := some e.count, status := some e.status }

/-- The record returned by `ScopeAnalyzer.analyze` (the human-readable
`recommendation_reasons` strings are omitted). -/
structure ScopeAnalysis where
  recommended_scope : String
  project_score : Nat
  global_score : Nat
  existing_rules : ExistingRules
  cross_repo : CrossRepo
  eligible_for_promotion : Bool
  promotion_threshold : Nat

namespace ScopeAnalyzer

/-- Embeds `ScopeAnalyzer.analyze`: the five-rule decision ladder
(global duplicate, project duplicate, cross-repo threshold, 1.5×
score dominance, project default) followed by the separate promotion
eligibility test.  The source compares float scores; since both
scores are sums of small integer weights, `g > p * 1.5` is exactly
`p * 3 < g * 2` and `g >= p * 0.8` is exactly `p * 4 ≤ g * 5` (the
rounding error of binary `1.5`/`0.8` cannot flip either comparison at
these magnitudes). -/
def analyze (promotion_threshold : Nat) (existing : ExistingRules)
    (db : Ledger) (c : Candidate) : ScopeAnalysis :=
  let ps := calculate_scores c
  let p := ps.1
  let g := ps.2
  let cr := check_cross_repo_presence db c.fingerprint
  let scope :=
    if existing.exists_global then "global"
    else if existing.exists_project then "project"
    else if promotion_threshold ≤ cr.repo_count then "global"
    else if p * 3 < g * 2 then "global"
    else if g * 3 < p * 2 then "project"
    else "project"
  let eligible := scope == "project" && decide (1 ≤ cr.repo_count) &&
    decide (p * 4 ≤ g * 5)
  { recommended_scope := scope, project_score := p, global_score := g,
    existing_rules := existing, cross_repo := cr,
    eligible_for_promotion := eligible,
    promotion_threshold := promotion_threshold }

end ScopeAnalyzer

/-! ## Candidate aggregator (`aggregate.py`) -/

/-- The vague trigger templates of `_is_quality_candidate`. -/
def vague_triggers : List String :=
  [ "when performing this action", "when doing this" ]

/-- The vague action templates of `_is_quality_candidate`. -/
def vague_actions : List String :=
  [ "follow the correct procedure", "do it correctly", "handle appropriately" ]

/-- Embeds `CandidateAggregator._is_quality_candidate`. -/
def is_quality_candidate (c : Candidate) : Bool :=
  if vague_triggers.contains c.trigger then false
  else if vague_actions.contains c.action then false
  else if c.trigger.length < 15 || c.action.length < 15 then false
  else true

/-- A stored serialized payload: either the serialization of a value or
a blob that fails to parse as JSON. -/
inductive JsonText (α : Type) where
  | ok (payload : α)
  | bad (raw : String)

/-- Python `json.loads` on a stored payload: malformed text raises
`json.JSONDecodeError`, modelled as `Except.error`. -/
def jsonLoads : JsonText α → Except String α
  | .ok p => .ok p
  | .bad raw => .error ("json.decoder.JSONDecodeError while parsing: " ++ raw)

/-- The content payload of a COMMAND_FAILURE event, with the fields the
failure extractor reads. -/
structure FailureContent where
  command : String
  stderr_preview : String
  exit_code : Int
  stderr_matches : List String

/-- A stored Event row.  The `context` payload is parsed by the failure
extractor but never read afterwards, hence its `Unit` payload type. -/
structure EventR where
  id : String
  timestamp : String
  event_type : String
  signal_type : String
  repo_id : String
  content : JsonText FailureContent
  context : JsonText Unit
  processed : Bool

/-- Python `re.findall(r'ext-(\w+)', s)`: the captured word after each
non-overlapping `ext-` occurrence. -/
def extFindAll : Nat → List Nat → List (List Nat)
  | 0, _ => []
  | f+1, s =>
    if isPreAt (encodeStr "ext-") s then
      let cap := (s.drop 4).takeWhile (fun c => isWordCode c)
      if cap.isEmpty then
        match s with
        | [] => []
        | _ :: rest => extFindAll f rest
      else cap :: extFindAll f (s.drop (4 + cap.length))
    else
      match s with
      | [] => []
      | _ :: rest => extFindAll f rest

/-- Embeds `CandidateAggregator._extract_failure_pattern` (the
`matches` parameter of the source is never read in its body and is
dropped here). -/
def extract_failure_pattern (command stderr : String) (failure_count : Nat) :
    String × String × String :=
  let stderr_lower := lowerStr stderr
  let cmd_parts := pysplit command
  let base_cmd := match cmd_parts with
    | p1 :: p2 :: _ => p1 ++ " " ++ p2
    | [ p1 ] => p1
    | [] => "command"
  if containsSub command "gh pr merge" && containsSub stderr_lower "merge queue" then
    ( "when using gh pr merge on a repo with merge queue enabled",
      "use " ++ apoS ++ "gh pr merge --auto" ++ apoS ++
        " instead of --squash/--delete-branch flags, or use GraphQL enqueuePullRequest mutation",
      "rule" )
  else if containsSub command "gh pr merge" &&
      (containsSub stderr_lower "not allowed" || containsSub stderr_lower "merge strategy") then
    ( "when gh pr merge fails with merge strategy error",
      "check repo settings for allowed merge methods, use --auto flag for auto-merge",
      "rule" )
  else if containsSub command "git push" &&
      (containsSub stderr_lower "protected branch" || containsSub stderr_lower "not fast-forward") then
    ( "when git push fails on protected branch",
      "create a PR instead of direct push, or use --force-with-lease if intentional",
      "rule" )
  else if containsSub command "git rebase" && containsSub stderr_lower "conflict" then
    ( "when git rebase encounters conflicts",
      "resolve conflicts file by file, use git rebase --continue, or abort with --abort",
      "rule" )
  else if containsSub (lowerStr command) "composer" &&
      (containsSub stderr_lower "ext-" || containsSub stderr_lower "ignore-platform-req") then
    let ext_matches := extFindAll ((encodeStr stderr_lower).length + 1) (encodeStr stderr_lower)
    let extensions := if ext_matches.isEmpty then "required extensions"
      else String.intercalate ", " (ext_matches.map decodeStr)
    ( "when composer fails due to missing PHP extensions (" ++ extensions ++ ")",
      "install missing PHP extensions or use --ignore-platform-req flags for development",
      "rule" )
  else if containsSub (lowerStr command) "composer" &&
      containsSub stderr_lower "platform" && containsSub stderr_lower "requirement" then
    ( "when composer fails with platform requirements",
      "check PHP version compatibility or configure platform in composer.json",
      "rule" )
  else if containsSub stderr_lower "command not found" then
    let tool := match cmd_parts with
      | t :: _ => t
      | [] => "tool"
    ( "when " ++ tool ++ " is not installed or not in PATH",
      "verify with " ++ apoS ++ "command -v " ++ tool ++ apoS ++ " before use, install if missing",
      "rule" )
  else if containsSub stderr_lower "permission denied" then
    ( "when " ++ base_cmd ++ " fails with permission denied",
      "check file/directory permissions, consider using sudo if appropriate",
      "rule" )
  else if [ "401", "403", "unauthorized", "forbidden" ].any
      (fun code => containsSub stderr_lower code) then
    ( "when " ++ base_cmd ++ " fails with authentication error",
      "verify credentials/tokens are valid and have required permissions",
      "rule" )
  else if [ "rate limit", "429" ].any (fun code => containsSub stderr_lower code) then
    ( "when " ++ base_cmd ++ " fails with rate limit error",
      "implement backoff/retry logic, or wait before retrying",
      "rule" )
  else if 2 ≤ failure_count then
    ( "when " ++ base_cmd ++ " fails repeatedly (" ++ toString failure_count ++ "x)",
      "investigate root cause before retrying; check prerequisites and error messages",
      "rule" )
  else
    ( "when " ++ base_cmd ++ " fails",
      "check error message and handle appropriately",
      "snippet" )

/-- ASCII upper-casing of one code point. -/
def toUpperCode (n : Nat) : Nat :=
  if 97 ≤ n ∧ n ≤ 122 then n - 32 else n

/-- Python `str.capitalize()`: first character upper, the rest lower. -/
def capitalizePy (s : String) : String :=
  match encodeStr s with
  | [] => ""
  | c :: rest => decodeStr (toUpperCode c :: rest.map toLowerCode)

/-- Embeds `CandidateAggregator._generate_title` (its `trigger`
parameter is unused in the source body). -/
def generate_title (_trigger action : String) : String :=
  let action_words := ((pysplit action).take 6).filter (fun w => 2 < w.length)
  let title := capitalizePy (String.intercalate " " action_words)
  if 5 < title.length then title else "Handle this case correctly"

/-- A default event used only as the `getLastD` fallback on lists the
grouping step guarantees non-empty. -/
def dummyEvent : EventR :=
  { id := "", timestamp := "", event_type := "", signal_type := "",
    repo_id := "", content := .ok ⟨ "", "", 1, [] ⟩, context := .ok (),
    processed := false }

/-- Append an event to its base-command group, preserving first-seen
group order (Python `defaultdict` insertion order). -/
def insertGroup (gs : List (String × List EventR)) (base : String) (ev : EventR) :
    List (String × List EventR) :=
  if gs.any (fun grp => grp.1 == base) then
    gs.map (fun grp => if grp.1 == base then (grp.1, grp.2 ++ [ ev ]) else grp)
  else gs ++ [ (base, [ ev ]) ]

/-- The grouping loop of `extract_candidate_from_failure`: each event's
content is parsed *without* a surrounding try/except, so a malformed
payload propagates as an error. -/
def groupFailures (events : List EventR) :
    Except String (List (String × List EventR)) :=
  events.foldlM (fun groups ev => do
    let content ← jsonLoads ev.content
    let base := lowerStr (String.intercalate " " ((pysplit content.command).take 2))
    pure (insertGroup groups base ev)) []

/-- Embeds `CandidateAggregator.extract_candidate_from_failure`.
Fresh candidate ids (`uuid.uuid4()` prefixes) and the clock are passed
in; every `json.loads` of this method is unguarded, so the result is
an `Except` that propagates a parse failure to the caller —
`aggregate` invokes this method outside any try/except. -/
def extract_candidate_from_failure (ids : List String) (now : String)
    (events : List EventR) : Except String (List Candidate) := do
  let groups ← groupFailures events
  groups.enum.mapM (fun ig => do
    let cmd_events := ig.2.2
    let ev := cmd_events.getLastD dummyEvent
    let content ← jsonLoads ev.content
    let _ctx ← jsonLoads ev.context
    let ta := extract_failure_pattern content.command content.stderr_preview cmd_events.length
    let trigger := ta.1
    let action := ta.2.1
    let ctype := ta.2.2
    let evidence ← (cmd_events.take 3).mapM (fun e => do
      let c ← jsonLoads e.content
      pure { event_id := e.id, command := pyTake 100 c.command : EvidenceRef })
    pure { id := ids.getD ig.1 "",
           title := generate_title trigger action,
           candidate_type := ctype, trigger := trigger, action := action,
           evidence := evidence,
           confidence := min ((7 : ℚ) / 10 + (cmd_events.length : ℚ) * (5 / 100))
             ((95 : ℚ) / 100),
           status := "pending", created_at := now,
           failure_count := cmd_events.length,
           fingerprint := Fingerprinter.fingerprint ctype trigger action })

/-! ## Claim theorems -/

set_option maxRecDepth 1000000

/-- The sequence of the C3 claim: a failing `gh pr merge 1 --squash`
on a merge-queue repo followed by a successful `gh pr merge 1 --auto`
(base command `gh pr`, as `add_command` groups them). -/
def seqC3 : CommandSequence :=
  { base_command := "gh pr",
    variations := [
      { command := "gh pr merge 1 --squash", exit_code := 1,
        stderr := "merge queue is required", timestamp := "t1" },
      { command := "gh pr merge 1 --auto", exit_code := 0,
        stderr := "", timestamp := "t2" } ] }

/-- C3: for the two-variation sequence
`[("gh pr merge 1 --squash", 1, "merge queue is required"),
("gh pr merge 1 --auto", 0, "")]`, `analyze_sequence` reports
`resolved = true`, a `flag_change` diff with `--squash` removed and
`--auto` added (both as the transition pattern and as the resolution
`fixed_by_flag_change`), and an actionable insight whose action text
references `--auto`.  The stated base command `gh pr` is exactly what
the variations derive. -/
theorem c3_root_cause_resolution :
    (analyze_sequence seqC3).resolved = true ∧
    (analyze_sequence seqC3).resolution =
      some (.fixed_by (.flag_change [ "--auto" ] [ "--squash" ]) "gh pr merge 1 --auto") ∧
    (analyze_sequence seqC3).patterns.map (·.change_type) = [ "flag_change" ] ∧
    ((analyze_sequence seqC3).actionable_insight.map
      (fun ins => containsSub ins.action "--auto")) = some true ∧
    ((analyze_sequence seqC3).actionable_insight.map (·.action)) =
      some "include flags --auto to avoid failures" ∧
    ((seqC3.variations.map (·.base_command)) = [ "gh pr", "gh pr" ]) := by
  decide

/-- A stored COMMAND_FAILURE event whose serialized content does not
parse as JSON. -/
def badEventC9 : EventR :=
  { id := "e1",
    timestamp := "2026-01-01T00:00:00",
    event_type := "tool",
    signal_type := "COMMAND_FAILURE",
    repo_id := "repo-a",
    content := .bad "corrupted payload",
    context := .ok (),
    processed := false }

/-- C9 (code bug): `extract_candidate_from_failure` parses each stored
content with a bare `json.loads`, so one malformed COMMAND_FAILURE
payload aborts the whole batch with a `JSONDecodeError` instead of
being treated as empty; `aggregate` invokes this extractor outside any
try/except, so the exception escapes its entry point, contradicting
the error-handling design (spec section 7) and the try/except guard
every sibling extractor has. -/
theorem c9_malformed_payload_raises :
    extract_candidate_from_failure [ "id1" ] "2026-01-01T00:00:01" [ badEventC9 ] =
      .error "json.decoder.JSONDecodeError while parsing: corrupted payload" := by
  rfl

/-- C1 (amended): fingerprinting is deterministic and collapses exactly
the surface variation that normalization collapses: any two
trigger/action pairs with equal normalized forms receive equal
digests.  (The claim's universal path/URL/number/UUID/hex clause fails
on the code: see the counterexample.) -/
theorem c1_fingerprint_stability (t a b a2 b2 : String)
    (ha : Fingerprinter.normalize a = Fingerprinter.normalize a2)
    (hb : Fingerprinter.normalize b = Fingerprinter.normalize b2) :
    Fingerprinter.fingerprint t a b = Fingerprinter.fingerprint t a2 b2 := by
  unfold Fingerprinter.fingerprint
  rw [ha, hb]

/-- Witness for C1: the bucketed tool names `npm` and `yarn` normalize
identically, so the fingerprints agree. -/
theorem c1_witness :
    Fingerprinter.normalize "run npm install" = Fingerprinter.normalize "run yarn install" ∧
    Fingerprinter.fingerprint "rule" "run npm install" "commit the result" =
      Fingerprinter.fingerprint "rule" "run yarn install" "commit the result" :=
  ⟨ by decide,
    c1_fingerprint_stability "rule" "run npm install" "commit the result"
      "run yarn install" "commit the result" (by decide) rfl ⟩

/-- Counterexample to C1 as stated: two triggers that differ only in
which UUID they contain can receive different digests.  The number
rule runs before the UUID rule, so a UUID whose last group is all
digits is rewritten to `...-<NUM>` first and the UUID rule no longer
matches, while a letters-only UUID collapses to `<UUID>`. -/
theorem c1_counterexample :
    Fingerprinter.fingerprint "rule" "123e4567-e89b-12d3-a456-426614174000" "" ≠
      Fingerprinter.fingerprint "rule" "aaaaaaaa-bbbb-cccc-dddd-eeeeeeeeeeee" "" := by
  decide

/-- Does every stage of `normalize` leave the string unchanged?
(Lowercasing, tool bucketing, the placeholder rules, punctuation
stripping and whitespace collapsing.) -/
def stagesFix (s : String) : Bool :=
  let l := encodeStr s
  ((l.map toLowerCode == l) && (applyBuckets l == l) && (applyRules l == l) &&
    (stripPunct l == l)) && (collapseWs l == l)

/-- C2 (amended): unrestricted idempotence of `normalize` fails —
renormalization lowercases the placeholder tokens the first pass
introduced (see the counterexample), and punctuation stripping can even
assemble new tool names, e.g. `normalize "n.p.m" = "npm"` while
`normalize "npm" = "<PKG_MANAGER>"`.  Idempotence does hold on every
input whose normal form each normalization stage already fixes: that
stage-fixedness is sufficient (no claim of necessity is made). -/
theorem c2_normalize_idempotent_on_stage_fixed (s : String)
    (h : stagesFix (Fingerprinter.normalize s) = true) :
    Fingerprinter.normalize (Fingerprinter.normalize s) = Fingerprinter.normalize s := by
  simp only [stagesFix, Bool.and_eq_true, beq_iff_eq, and_assoc] at h
  generalize hr : Fingerprinter.normalize s = r at h ⊢
  obtain ⟨ h1, h2, h3, h4, h5 ⟩ := h
  show Fingerprinter.normalize r = r
  unfold Fingerprinter.normalize Fingerprinter.normalizeCodes
  by_cases he : (encodeStr r).isEmpty
  · rw [if_pos he]
    clear h1 h2 h3 h4 h5 hr
    have hnil : encodeStr r = [] := List.isEmpty_iff.mp he
    have hdata : r.data = [] := by
      cases hd : r.data with
      | nil => rfl
      | cons a l => rw [encodeStr, hd] at hnil; simp at hnil
    have : r = "" := by
      cases r
      simpa using congrArg String.mk hdata
    rw [this]
    rfl
  · rw [if_neg he, h1, h2, h3, h4, h5]
    clear h1 h2 h3 h4 h5 hr he
    show decodeStr (encodeStr r) = r
    cases r with
    | mk data =>
      have : (encodeStr (String.mk data)).map Char.ofNat = data := by
        rw [encodeStr]
        simp [List.map_map, Function.comp_def, Char.ofNat_toNat]
      rw [decodeStr, this]

/-- Witness for C2's amended statement: an already-plain string. -/
theorem c2_witness :
    stagesFix (Fingerprinter.normalize "hello world") = true ∧
    Fingerprinter.normalize (Fingerprinter.normalize "hello world") =
      Fingerprinter.normalize "hello world" :=
  ⟨ by decide, c2_normalize_idempotent_on_stage_fixed "hello world" (by decide) ⟩

/-- Counterexample to C2 as stated: `normalize "npm" = "<PKG_MANAGER>"`
but renormalizing lowercases the placeholder to `<pkg_manager>`, so
the normalized string is not a fixed point. -/
theorem c2_counterexample :
    Fingerprinter.normalize (Fingerprinter.normalize "npm") ≠
      Fingerprinter.normalize "npm" := by
  decide

/-- C5: the quality gate rejects exactly the candidates whose trigger
is one of the vague trigger templates, whose action is one of the
vague action templates, or whose trigger or action has fewer than 15
characters; it accepts every other candidate. -/
theorem c5_quality_gate (c : Candidate) :
    is_quality_candidate c = false ↔
      (c.trigger ∈ vague_triggers ∨ c.action ∈ vague_actions ∨
       c.trigger.length < 15 ∨ c.action.length < 15) := by
  unfold is_quality_candidate
  have ht : vague_triggers.elem c.trigger = true ↔ c.trigger ∈ vague_triggers :=
    List.elem_iff
  have ha : vague_actions.elem c.action = true ↔ c.action ∈ vague_actions :=
    List.elem_iff
  split_ifs with hvt hva hlen
  · simp only [true_iff, eq_self_iff_true]
    exact Or.inl (ht.mp hvt)
  · simp only [true_iff, eq_self_iff_true]
    exact Or.inr (Or.inl (ha.mp hva))
  · simp only [true_iff, eq_self_iff_true]
    simp only [Bool.or_eq_true, decide_eq_true_eq] at hlen
    exact Or.inr (Or.inr hlen)
  · simp only [Bool.or_eq_true, decide_eq_true_eq, not_or] at hlen
    constructor
    · intro h
      exact absurd h (by simp)
    · rintro (h | h | h | h)
      · exact absurd (ht.mpr h) hvt
      · exact absurd (ha.mpr h) hva
      · omega
      · omega

/-- C10: on a tool result with exit code 0, `detect_command_failure`
records a fully successful call (empty stderr) into the rolling
context and emits no signal; with non-empty stderr matching none of
the failure-stderr patterns it emits no signal and does not record the
call; with non-empty stderr matching some pattern it both emits a
COMMAND_FAILURE signal and records the call — so exactly the fully
successful and the signal-emitting calls are recorded. -/
theorem c10_exit_zero_recording :
    (∀ (ctx : RecentContext) (command now : String),
      detect_command_failure ctx 0 "" command now =
        (none, add_tool_call_context ctx command 0 "" now)) ∧
    (∀ (ctx : RecentContext) (stderr command now : String),
      stderr ≠ "" → stderrMatchesOf stderr = [] →
      detect_command_failure ctx 0 stderr command now = (none, ctx)) ∧
    (∀ (ctx : RecentContext) (stderr command now : String),
      stderr ≠ "" → stderrMatchesOf stderr ≠ [] →
      ∃ sig, detect_command_failure ctx 0 stderr command now =
        (some sig, add_tool_call_context ctx command 0 stderr now)) := by
  refine ⟨ ?_, ?_, ?_ ⟩
  · intro ctx command now
    simp [detect_command_failure]
  · intro ctx stderr command now hs hm
    rw [detect_command_failure]
    rw [if_neg (by simp [beq_eq_false_iff_ne.mpr hs])]
    rw [hm]
    simp
  · intro ctx stderr command now hs hm
    rw [detect_command_failure]
    rw [if_neg (by simp [beq_eq_false_iff_ne.mpr hs])]
    rw [if_pos (by simp [List.isEmpty_iff, hm])]
    exact ⟨ _, rfl ⟩

/-- Witness for C10: a successful `ls -la`, a benign diagnostic that
matches no failure pattern, and an `error:`-carrying stderr. -/
theorem c10_witness :
    ("mild notice text" : String) ≠ "" ∧
    stderrMatchesOf "mild notice text" = [] ∧
    stderrMatchesOf "error: boom boom" ≠ [] ∧
    detect_command_failure ⟨ [], [], [] ⟩ 0 "" "ls -la" "t0" =
      (none, add_tool_call_context ⟨ [], [], [] ⟩ "ls -la" 0 "" "t0") ∧
    detect_command_failure ⟨ [], [], [] ⟩ 0 "mild notice text" "ls -la" "t0" =
      (none, ⟨ [], [], [] ⟩) ∧
    ∃ sig, detect_command_failure ⟨ [], [], [] ⟩ 0 "error: boom boom" "ls -la" "t0" =
      (some sig, add_tool_call_context ⟨ [], [], [] ⟩ "ls -la" 0 "error: boom boom" "t0") :=
  ⟨ by decide, by decide, by decide,
    c10_exit_zero_recording.1 ⟨ [], [], [] ⟩ "ls -la" "t0",
    c10_exit_zero_recording.2.1 ⟨ [], [], [] ⟩ "mild notice text" "ls -la" "t0"
      (by decide) (by decide),
    c10_exit_zero_recording.2.2 ⟨ [], [], [] ⟩ "error: boom boom" "ls -la" "t0"
      (by decide) (by decide) ⟩

/-- A key-preserving row update commutes with `find?` by key. -/
theorem find?_map_keyfix (g : String × LedgerEntry → String × LedgerEntry)
    (hg : ∀ row, (g row).1 = row.1) (db : Ledger) (fp : String) :
    (db.map g).find? (fun row => row.1 == fp) =
      (db.find? (fun row => row.1 == fp)).map g := by
  induction db with
  | nil => rfl
  | cons row rest ih =>
    rw [List.map_cons, List.find?_cons, List.find?_cons, hg row]
    cases hb : (row.1 == fp) with
    | true => rfl
    | false => exact ih

/-- Looking up a fresh fingerprint after appending its row. -/
theorem ledgerLookup_append_new (db : Ledger) (fp : String) (e : LedgerEntry)
    (h : ledgerLookup db fp = none) :
    ledgerLookup (db ++ [ (fp, e) ]) fp = some e := by
  unfold ledgerLookup at h ⊢
  rw [List.find?_append]
  rw [Option.map_eq_none'] at h
  rw [h]
  simp [List.find?]

/-- Appending rows does not affect a fingerprint already present. -/
theorem ledgerLookup_append_of_isSome (db l2 : Ledger) (fp : String)
    (h : (ledgerLookup db fp).isSome) :
    ledgerLookup (db ++ l2) fp = ledgerLookup db fp := by
  unfold ledgerLookup at h ⊢
  rw [List.find?_append]
  cases hf : db.find? (fun row => row.1 == fp) with
  | none => rw [hf] at h; simp at h
  | some row => rfl

/-- Inserting the first sighting of a fingerprint
(`add_repo_to_candidate` on a ledger without it). -/
theorem add_repo_lookup_none (db : Ledger) (fp repo now : String)
    (h : ledgerLookup db fp = none) :
    ledgerLookup (add_repo_to_candidate db fp repo now) fp =
      some { repo_ids := [ repo ], count := 1, status := "pending",
             first_seen := now, last_seen := now, updated_at := none } := by
  unfold add_repo_to_candidate
  rw [h]
  exact ledgerLookup_append_new db fp _ h

/-- Updating an existing fingerprint (`add_repo_to_candidate` on a
ledger already holding it): the repo id is appended only when new, the
count always increments. -/
theorem add_repo_lookup_some (db : Ledger) (fp repo now : String) (e : LedgerEntry)
    (h : ledgerLookup db fp = some e) :
    ledgerLookup (add_repo_to_candidate db fp repo now) fp =
      some { e with
             repo_ids := if e.repo_ids.contains repo then e.repo_ids
               else e.repo_ids ++ [ repo ],
             count := e.count + 1, last_seen := now, updated_at := some now } := by
  unfold add_repo_to_candidate
  rw [h]
  have hg : ∀ row : String × LedgerEntry,
      ((fun row => if row.1 == fp then
        (row.1, { row.2 with
                  repo_ids := if e.repo_ids.contains repo then e.repo_ids
                    else e.repo_ids ++ [ repo ],
                  count := e.count + 1, last_seen := now,
                  updated_at := some now }) else row) row).1 = row.1 := by
    intro row
    by_cases hb : (row.1 == fp) = true
    · simp [hb]
    · simp [hb]
  unfold ledgerLookup at h ⊢
  rw [find?_map_keyfix _ hg]
  cases hf : db.find? (fun row => row.1 == fp) with
  | none => rw [hf] at h; simp at h
  | some row =>
    rw [hf] at h
    have hkey : (row.1 == fp) = true := by
      have := List.find?_some hf
      simpa using this
    have hval : row.2 = e := by simpa using h
    simp only [Option.map_some', hkey, if_pos, hval]

/-- Adding a sighting never deletes a row: every fingerprint present
before is present after. -/
theorem add_repo_preserves_isSome (db : Ledger) (fp repo now fp2 : String)
    (h : (ledgerLookup db fp2).isSome) :
    (ledgerLookup (add_repo_to_candidate db fp repo now) fp2).isSome := by
  unfold add_repo_to_candidate
  cases hl : ledgerLookup db fp with
  | some e =>
    unfold ledgerLookup at h ⊢
    rw [find?_map_keyfix]
    · cases hf : db.find? (fun row => row.1 == fp2) with
      | none => rw [hf] at h; simp at h
      | some row => simp
    · intro row
      by_cases hb : (row.1 == fp) = true
      · simp [hb]
      · simp [hb]
  | none =>
    rw [ledgerLookup_append_of_isSome db _ fp2 h]
    exact h

/-- C6: starting from a ledger without the fingerprint, adding it from
two distinct repos yields `repo_count = 2` and promotion eligibility
at threshold 2; adding it twice from the same repo leaves
`repo_count = 1` while `count` still increments to 2; and no
fingerprint present before the additions is ever deleted. -/
theorem c6_ledger_cross_repo (db : Ledger) (fp r1 r2 t1 t2 t3 : String)
    (hnew : ledgerLookup db fp = none) (hne : r1 ≠ r2) :
    (check_promotion_eligibility
      (add_repo_to_candidate (add_repo_to_candidate db fp r1 t1) fp r2 t2) fp 2).repo_count = 2 ∧
    (check_promotion_eligibility
      (add_repo_to_candidate (add_repo_to_candidate db fp r1 t1) fp r2 t2) fp 2).eligible = true ∧
    (check_promotion_eligibility
      (add_repo_to_candidate (add_repo_to_candidate db fp r1 t1) fp r1 t3) fp 2).repo_count = 1 ∧
    (ledgerLookup (add_repo_to_candidate (add_repo_to_candidate db fp r1 t1) fp r1 t3) fp).map
      (·.count) = some 2 ∧
    (∀ fp2, (ledgerLookup db fp2).isSome →
      (ledgerLookup
        (add_repo_to_candidate (add_repo_to_candidate db fp r1 t1) fp r2 t2) fp2).isSome) := by
  have h1 := add_repo_lookup_none db fp r1 t1 hnew
  have hc2 : ([ r1 ].contains r2) = false := by
    rw [Bool.eq_false_iff]
    intro hmem
    have h21 : r2 = r1 := by simpa using List.elem_iff.mp hmem
    exact hne h21.symm
  have hc1 : ([ r1 ].contains r1) = true := List.elem_iff.mpr (by simp)
  have h2 := add_repo_lookup_some (add_repo_to_candidate db fp r1 t1) fp r2 t2 _ h1
  rw [hc2] at h2
  simp only [Bool.false_eq_true, if_false] at h2
  have h3 := add_repo_lookup_some (add_repo_to_candidate db fp r1 t1) fp r1 t3 _ h1
  rw [hc1] at h3
  simp only [if_true] at h3
  refine ⟨ ?_, ?_, ?_, ?_, ?_ ⟩
  · unfold check_promotion_eligibility
    rw [h2]
    simp
  · unfold check_promotion_eligibility
    rw [h2]
    simp
  · unfold check_promotion_eligibility
    rw [h3]
    simp
  · rw [h3]
    rfl
  · intro fp2 hsome
    exact add_repo_preserves_isSome _ fp r2 t2 fp2
      (add_repo_preserves_isSome db fp r1 t1 fp2 hsome)

/-- Witness for C6 at the empty ledger with concrete fingerprints and
repo ids. -/
theorem c6_witness :
    ledgerLookup ([] : Ledger) "fp-a" = none ∧
    (check_promotion_eligibility
      (add_repo_to_candidate (add_repo_to_candidate [] "fp-a" "repo-1" "t1") "fp-a" "repo-2" "t2")
      "fp-a" 2).eligible = true ∧
    (check_promotion_eligibility
      (add_repo_to_candidate (add_repo_to_candidate [] "fp-a" "repo-1" "t1") "fp-a" "repo-1" "t3")
      "fp-a" 2).repo_count = 1 :=
  ⟨ rfl,
    (c6_ledger_cross_repo [] "fp-a" "repo-1" "repo-2" "t1" "t2" "t3" rfl
      (by decide)).2.1,
    (c6_ledger_cross_repo [] "fp-a" "repo-1" "repo-2" "t1" "t2" "t3" rfl
      (by decide)).2.2.1 ⟩

/-- The C8 counterexample candidate: `docker-compose.` scores 2 on the
project side while the `\bdocker\b` tool indicator scores 2 on the
global side, so the scope defaults to project with `g = 0.8·p`
satisfied. -/
def candC8 : Candidate :=
  { id := "c8", title := "", candidate_type := "rule",
    trigger := "update", action := "docker-compose.yml settings",
    evidence := [], confidence := 1, status := "pending", created_at := "t0",
    failure_count := 1, fingerprint := "fp-c8" }

/-- A ledger in which the counterexample fingerprint has been seen only
in `repo-current`, the analyzing repository itself. -/
def ledC8 : Ledger :=
  [ ( "fp-c8", ⟨ [ "repo-current" ], 1, "pending", "t0", "t0", none ⟩ ) ]

/-- Counterexample to C8 as stated: the candidate's fingerprint has
been seen in no repository other than the current one
(`repo-current`), yet `analyze` flags it eligible for promotion —
the code tests `repo_count >= 1` over all repos and never excludes the
current repository. -/
theorem c8_counterexample :
    (ScopeAnalyzer.analyze 2 ⟨ false, false ⟩ ledC8 candC8).eligible_for_promotion = true ∧
    (check_cross_repo_presence ledC8 candC8.fingerprint).repos = [ "repo-current" ] ∧
    ¬ ∃ r ∈ (check_cross_repo_presence ledC8 candC8.fingerprint).repos,
        r ≠ "repo-current" := by
  refine ⟨ by decide, by decide, ?_ ⟩
  decide

/-- C8 (amended): `analyze` flags a candidate eligible for promotion
exactly when the recommended scope is project, the fingerprint is
present in the ledger with at least one recorded repository — any
repository, the current one included — and the global score is at
least 0.8 times the project score (stated as the exact rational
inequality over the integer scores). -/
theorem c8_promotion_eligibility (th : Nat) (ex : ExistingRules) (db : Ledger)
    (c : Candidate) :
    (ScopeAnalyzer.analyze th ex db c).eligible_for_promotion = true ↔
      ((ScopeAnalyzer.analyze th ex db c).recommended_scope = "project" ∧
       1 ≤ (check_cross_repo_presence db c.fingerprint).repo_count ∧
       ((calculate_scores c).1 : ℚ) * (4 / 5) ≤ ((calculate_scores c).2 : ℚ)) := by
  have hq : ∀ p g : Nat, (((p : ℚ) * (4 / 5) ≤ (g : ℚ)) ↔ p * 4 ≤ g * 5) := by
    intro p g
    constructor
    · intro h
      have h4 : (p : ℚ) * 4 ≤ (g : ℚ) * 5 := by linarith
      exact_mod_cast h4
    · intro h
      have h4 : (p : ℚ) * 4 ≤ (g : ℚ) * 5 := by exact_mod_cast h
      linarith
  rw [hq]
  unfold ScopeAnalyzer.analyze
  simp only [Bool.and_eq_true, beq_iff_eq, decide_eq_true_eq, and_assoc]

/-- A correction signal is always typed USER_CORRECTION. -/
theorem detect_correction_type (content : String) (s : SigOut)
    (h : detect_correction content = some s) : s.signal_type = "USER_CORRECTION" := by
  unfold detect_correction at h
  split at h
  · cases h
    rfl
  · exact Option.noConfusion h

/-- An escalation signal is always typed TONE_ESCALATION. -/
theorem detect_escalation_type (content : String) (s : SigOut)
    (h : detect_escalation content = some s) : s.signal_type = "TONE_ESCALATION" := by
  unfold detect_escalation at h
  split at h
  · cases h
    rfl
  · exact Option.noConfusion h

/-- A skill-supplement signal is always typed SKILL_SUPPLEMENT. -/
theorem detect_skill_supplement_type (content : String) (s : SigOut)
    (h : detect_skill_supplement content = some s) : s.signal_type = "SKILL_SUPPLEMENT" := by
  unfold detect_skill_supplement at h
  split at h
  · cases h
    rfl
  · exact Option.noConfusion h

/-- A verification signal is always typed VERIFICATION_QUESTION. -/
theorem detect_verification_question_type (content : String) (s : SigOut)
    (h : detect_verification_question content = some s) :
    s.signal_type = "VERIFICATION_QUESTION" := by
  unfold detect_verification_question at h
  split at h
  · cases h
    rfl
  · exact Option.noConfusion h

/-- A repetition signal is always typed REPETITION. -/
theorem detect_repetition_type (msgs : List String) (content : String) (s : SigOut)
    (h : detect_repetition msgs content = some s) : s.signal_type = "REPETITION" := by
  unfold detect_repetition at h
  split at h
  · exact Option.noConfusion h
  · split at h
    · cases h
      rfl
    · exact Option.noConfusion h

/-- On a non-empty history, a repetition signal is emitted exactly when
at least two of the last 10 history entries are similar to the
content. -/
theorem detect_repetition_isSome (msgs : List String) (content : String)
    (h : msgs ≠ []) :
    (detect_repetition msgs content).isSome = true ↔
      2 ≤ countSimilar msgs content := by
  unfold detect_repetition
  rw [if_neg (by simpa [List.isEmpty_iff] using h)]
  by_cases hn : 2 ≤ countSimilar msgs content
  · simp [hn]
  · simp [hn]

/-- The repetition slot of the emitted signal list is non-empty exactly
when the repetition detector fires. -/
theorem optL_any_repetition (msgs : List String) (content : String) :
    (optL (detect_repetition msgs content)).any
      (fun s => s.signal_type == "REPETITION") =
      (detect_repetition msgs content).isSome := by
  cases hr : detect_repetition msgs content with
  | none => rfl
  | some s =>
    have ht := detect_repetition_type msgs content s hr
    simp [optL, ht]

/-- Correction signals never populate the REPETITION slot. -/
theorem optL_corr_no_rep (content : String) :
    (optL (detect_correction content)).any
      (fun s => s.signal_type == "REPETITION") = false := by
  cases h1 : detect_correction content with
  | none => rfl
  | some s =>
    have := detect_correction_type content s h1
    simp [optL, this]

/-- Escalation signals never populate the REPETITION slot. -/
theorem optL_esc_no_rep (content : String) :
    (optL (detect_escalation content)).any
      (fun s => s.signal_type == "REPETITION") = false := by
  cases h1 : detect_escalation content with
  | none => rfl
  | some s =>
    have := detect_escalation_type content s h1
    simp [optL, this]

/-- Skill-supplement signals never populate the REPETITION slot. -/
theorem optL_skill_no_rep (content : String) :
    (optL (detect_skill_supplement content)).any
      (fun s => s.signal_type == "REPETITION") = false := by
  cases h1 : detect_skill_supplement content with
  | none => rfl
  | some s =>
    have := detect_skill_supplement_type content s h1
    simp [optL, this]

/-- Verification signals never populate the REPETITION slot. -/
theorem optL_verif_no_rep (content : String) :
    (optL (detect_verification_question content)).any
      (fun s => s.signal_type == "REPETITION") = false := by
  cases h1 : detect_verification_question content with
  | none => rfl
  | some s =>
    have := detect_verification_question_type content s h1
    simp [optL, this]

/-- Appending an entry leaves the trimmed rolling history non-empty. -/
theorem takeLast_append_ne_nil (l : List α) (x : α) : takeLast 20 (l ++ [ x ]) ≠ [] := by
  unfold takeLast
  intro h
  have hlen := congrArg List.length h
  simp [List.length_drop] at hlen
  omega

/-- C4 (amended): `process_user_message` emits a REPETITION signal iff
the Jaccard similarity exceeds 0.5 against at least two entries of the
last 10 of the rolling history *after* the current message (truncated
to 500 characters) has been appended.  The just-appended copy of the
current message is itself one of those entries, so one similar genuine
prior message suffices for any non-empty message — the claim's
"two distinct prior messages" reading fails (see the
counterexample). -/
theorem c4_repetition_characterization (ctx : RecentContext) (content : String) :
    ((process_user_message ctx content).1.any
      (fun s => s.signal_type == "REPETITION")) = true ↔
      2 ≤ countSimilar (takeLast 20 (ctx.messages ++ [ pyTake 500 content ])) content := by
  unfold process_user_message saveRecentContext
  simp only [List.any_append, optL_corr_no_rep, optL_esc_no_rep, optL_skill_no_rep,
    optL_verif_no_rep, optL_any_repetition, Bool.false_or, Bool.or_false]
  exact detect_repetition_isSome _ content (takeLast_append_ne_nil ctx.messages _)

/-- The claim's repetition condition as stated: similarity above 0.5
with at least two distinct prior messages among the last 10 of the
rolling history, the current message not counting as a prior
message. -/
def claimRepetitionCond (prior : List String) (content : String) : Prop :=
  2 ≤ countSimilar prior content

/-- Counterexample to C4 as stated: with exactly one prior message
identical to the current one, only one distinct prior message is
similar — yet the code emits a REPETITION signal, because the current
message is appended to the history before `detect_repetition` runs and
counts as its own similar entry. -/
theorem c4_counterexample :
    (((process_user_message ⟨ [], [ "please fix the login bug" ], [] ⟩
        "please fix the login bug").1.map (·.signal_type)).contains "REPETITION") = true ∧
    ¬ claimRepetitionCond [ "please fix the login bug" ] "please fix the login bug" := by
  constructor
  · decide
  · unfold claimRepetitionCond
    decide

/-- A pattern's weight bounds the keyword score from below whenever the
pattern matches. -/
theorem scoreOf_ge_of_matched (inds : List (Regex × Nat)) (tl : List Nat)
    (p : Regex) (w : Nat) (hmem : (p, w) ∈ inds)
    (hm : rsearch false p tl = true) : w ≤ scoreOf inds tl := by
  induction inds with
  | nil => cases hmem
  | cons pw rest ih =>
    unfold scoreOf
    rw [List.map_cons, List.sum_cons]
    rcases List.mem_cons.mp hmem with heq | htail
    · rw [← heq]
      simp only [hm, if_true]
      exact Nat.le_add_right w _
    · have hrest := ih htail
      unfold scoreOf at hrest
      omega

/-- C7: with no similar existing rule and no cross-repo override, a
candidate whose text matches the `run tests` and `commit message`
global indicators and no project indicator scores global over project
and is recommended global; a candidate whose text matches the `apps/`
or `docker-compose.` project indicator and no global indicator is
recommended project. -/
theorem c7_scope_recommendation :
    (∀ (th : Nat) (db : Ledger) (c : Candidate),
      (check_cross_repo_presence db c.fingerprint).repo_count < th →
      rsearch false runTestsRe (encodeStr (lowerStr (textOf c))) = true →
      rsearch false commitMessageRe (encodeStr (lowerStr (textOf c))) = true →
      scoreOf PROJECT_INDICATORS (encodeStr (lowerStr (textOf c))) = 0 →
      ((ScopeAnalyzer.analyze th ⟨ false, false ⟩ db c).recommended_scope = "global" ∧
       (ScopeAnalyzer.analyze th ⟨ false, false ⟩ db c).project_score <
         (ScopeAnalyzer.analyze th ⟨ false, false ⟩ db c).global_score)) ∧
    (∀ (th : Nat) (db : Ledger) (c : Candidate),
      (check_cross_repo_presence db c.fingerprint).repo_count < th →
      (rsearch false appsRe (encodeStr (lowerStr (textOf c))) = true ∨
       rsearch false dockerComposeRe (encodeStr (lowerStr (textOf c))) = true) →
      scoreOf GLOBAL_INDICATORS (encodeStr (lowerStr (textOf c))) = 0 →
      (ScopeAnalyzer.analyze th ⟨ false, false ⟩ db c).recommended_scope = "project") := by
  constructor
  · intro th db c hcr hrun _hcommit hproj
    have hg3 : 3 ≤ scoreOf GLOBAL_INDICATORS (encodeStr (lowerStr (textOf c))) :=
      scoreOf_ge_of_matched _ _ runTestsRe 3
        (by unfold GLOBAL_INDICATORS; exact List.mem_cons_self _ _) hrun
    have hnotle : ¬ (th ≤ (check_cross_repo_presence db c.fingerprint).repo_count) := by
      omega
    have hlt : scoreOf PROJECT_INDICATORS (encodeStr (lowerStr (textOf c))) * 3 <
        scoreOf GLOBAL_INDICATORS (encodeStr (lowerStr (textOf c))) * 2 := by
      omega
    constructor
    · simp only [ScopeAnalyzer.analyze, calculate_scores]
      rw [if_neg (by simp), if_neg (by simp), if_neg hnotle, if_pos hlt]
    · simp only [ScopeAnalyzer.analyze, calculate_scores]
      omega
  · intro th db c hcr _hmatch hglob
    have hnotle : ¬ (th ≤ (check_cross_repo_presence db c.fingerprint).repo_count) := by
      omega
    have hnotlt : ¬ (scoreOf PROJECT_INDICATORS (encodeStr (lowerStr (textOf c))) * 3 <
        scoreOf GLOBAL_INDICATORS (encodeStr (lowerStr (textOf c))) * 2) := by
      omega
    simp only [ScopeAnalyzer.analyze, calculate_scores]
    rw [if_neg (by simp), if_neg (by simp), if_neg hnotle, if_neg hnotlt]
    split
    · rfl
    · rfl

/-- The universal-practice witness candidate for C7. -/
def candC7a : Candidate :=
  { id := "c7a", title := "", candidate_type := "rule",
    trigger := "always run tests", action := "and write a clear commit message",
    evidence := [], confidence := 1, status := "pending", created_at := "t0",
    failure_count := 1, fingerprint := "fp-c7a" }

/-- The project-path witness candidate for C7. -/
def candC7b : Candidate :=
  { id := "c7b", title := "", candidate_type := "rule",
    trigger := "edit the", action := "xdocker-compose.yml overrides",
    evidence := [], confidence := 1, status := "pending", created_at := "t0",
    failure_count := 1, fingerprint := "fp-c7b" }

/-- Witness for C7 at two concrete candidates over an empty ledger. -/
theorem c7_witness :
    (ScopeAnalyzer.analyze 2 ⟨ false, false ⟩ [] candC7a).recommended_scope = "global" ∧
    (ScopeAnalyzer.analyze 2 ⟨ false, false ⟩ [] candC7b).recommended_scope = "project" :=
  ⟨ (c7_scope_recommendation.1 2 [] candC7a (by decide) (by decide) (by decide)
      (by decide)).1,
    c7_scope_recommendation.2 2 [] candC7b (by decide) (Or.inr (by decide)) (by decide) ⟩

end Coach
